import Mathlib

/-
Verification development for a soil boring-log renderer (an SVG diagram
generator for geotechnical site-investigation records) together with its
CSV ingestion transform.

The JavaScript sources are shallowly embedded:
* JS numbers are modelled by `Rat` on code paths where no NaN/Infinity can
  arise, and by the four-point extension `JSNum` (finite / NaN / +Inf /
  -Inf) on the code paths where JS produces NaN (the legend-height
  computation, and sample depths that may be `undefined`).
* DOM element creation is modelled by a scene-graph value type `Elem`;
  a render call produces the ordered list of elements appended to the
  container.  String formatting of non-integral numbers is abstracted by a
  fixed deterministic `numToStr` (JS decimal float formatting is not
  reproduced); `.toUpperCase`/`.toLowerCase` are modelled per-character
  (faithful on the ASCII data the program manipulates).
* JS exceptions (`TypeError` from property access on `undefined`) are
  modelled by `Except`.
-/

namespace SoilLog

/-- JS template-literal interpolation of a possibly-undefined string:
`undefined` prints as the text "undefined". -/
def jsStr : Option String → String
  | some s => s
  | none => "undefined"

/-- JS truthiness of an optional string: `undefined` and `""` are falsy. -/
def truthy : Option String → Bool
  | some s => s != ""
  | none => false

/-- Deterministic rendering of a rational to text.  Integral values print
exactly as in JS; non-integral values use a fixed fraction notation (JS
decimal float formatting is abstracted, no claim depends on it). -/
def numToStr (q : ℚ) : String :=
  if q.den = 1 then toString q.num else toString q.num ++ "/" ++ toString q.den

/-- JS template-literal interpolation of a possibly-undefined number. -/
def jsNumStr : Option ℚ → String
  | some q => numToStr q
  | none => "undefined"

/-- Model of JS `Number.prototype.toFixed(1)` on a rational. -/
def toFixed1 (q : ℚ) : String :=
  let n : ℤ := round (q * 10)
  (if n < 0 ∧ n / 10 = 0 then "-" else "") ++
    toString (n / 10) ++ "." ++ toString (n % 10).natAbs

/-- Model of JS `String.prototype.toUpperCase` (ASCII). -/
def jsToUpper (s : String) : String := String.mk (s.toList.map Char.toUpper)

/-- Model of JS `String.prototype.toLowerCase` (ASCII). -/
def jsToLower (s : String) : String := String.mk (s.toList.map Char.toLower)

/-- Model of JS `String.prototype.trim`: strip whitespace at both ends. -/
def jsTrim (s : String) : String :=
  String.mk
    (((s.toList.dropWhile Char.isWhitespace).reverse.dropWhile
        Char.isWhitespace).reverse)

/-- Model of JS `Array.prototype.join`. -/
def jsJoin (sep : String) : List String → String
  | [] => ""
  | [x] => x
  | x :: xs => x ++ sep ++ jsJoin sep xs

/-- Model of JS `String.prototype.split` with a one-character separator
(`"".split(sep)` is `[""]`). -/
def splitChar (sep : Char) (s : String) : List String :=
  (s.toList.foldr
    (fun c acc =>
      match acc with
      | h :: t => if c = sep then [] :: h :: t else (c :: h) :: t
      | [] => [[c]])
    [[]]).map String.mk

/-- Stable insertion of `x` after all already-placed elements `y` with
`le y x` (ties keep the earlier element first). -/
def sInsert (le : α → α → Bool) (x : α) : List α → List α
  | [] => [x]
  | y :: ys => if le y x then y :: sInsert le x ys else x :: y :: ys

/-- Model of `Array.prototype.sort` with a numeric comparator: a stable
sort by the induced total preorder. -/
def stableSort (le : α → α → Bool) (l : List α) : List α :=
  l.foldl (fun acc x => sInsert le x acc) []

/-- JS double values as far as this program needs them: a finite value,
NaN, or a signed infinity. -/
inductive JSNum where
  | num (q : ℚ)
  | nan
  | inf
  | ninf
  deriving DecidableEq

/-- Finite JS number. -/
def jq (q : ℚ) : JSNum := .num q

/-- A possibly-`undefined` number used in JS arithmetic: `undefined`
coerces to NaN. -/
def jsOfOpt : Option ℚ → JSNum
  | some q => .num q
  | none => .nan

/-- JS addition. -/
def jadd : JSNum → JSNum → JSNum
  | .num a, .num b => .num (a + b)
  | .nan, _ => .nan
  | _, .nan => .nan
  | .inf, .ninf => .nan
  | .ninf, .inf => .nan
  | .inf, _ => .inf
  | _, .inf => .inf
  | .ninf, _ => .ninf
  | _, .ninf => .ninf

/-- JS subtraction. -/
def jsub : JSNum → JSNum → JSNum
  | .num a, .num b => .num (a - b)
  | .nan, _ => .nan
  | _, .nan => .nan
  | .inf, .inf => .nan
  | .ninf, .ninf => .nan
  | .inf, _ => .inf
  | _, .inf => .ninf
  | .ninf, _ => .ninf
  | _, .ninf => .inf

/-- JS multiplication. -/
def jmul : JSNum → JSNum → JSNum
  | .num a, .num b => .num (a * b)
  | .nan, _ => .nan
  | _, .nan => .nan
  | .inf, .num b => if b = 0 then .nan else if 0 < b then .inf else .ninf
  | .num a, .inf => if a = 0 then .nan else if 0 < a then .inf else .ninf
  | .ninf, .num b => if b = 0 then .nan else if 0 < b then .ninf else .inf
  | .num a, .ninf => if a = 0 then .nan else if 0 < a then .ninf else .inf
  | .inf, .inf => .inf
  | .ninf, .ninf => .inf
  | .inf, .ninf => .ninf
  | .ninf, .inf => .ninf

/-- JS division (notably `0/0 = NaN` and `x/0 = ±Infinity` for `x ≠ 0`). -/
def jdiv : JSNum → JSNum → JSNum
  | .num a, .num b =>
      if b = 0 then (if a = 0 then .nan else if 0 < a then .inf else .ninf)
      else .num (a / b)
  | .nan, _ => .nan
  | _, .nan => .nan
  | .num _, .inf => .num 0
  | .num _, .ninf => .num 0
  | .inf, .num b => if 0 ≤ b then .inf else .ninf
  | .ninf, .num b => if 0 ≤ b then .ninf else .inf
  | .inf, _ => .nan
  | .ninf, _ => .nan

/-- JS `Math.ceil` (identity on NaN and infinities). -/
def jceil : JSNum → JSNum
  | .num q => .num (⌈q⌉ : ℤ)
  | x => x

/-- JS `Math.max` (NaN absorbs). -/
def jmax : JSNum → JSNum → JSNum
  | .num a, .num b => .num (max a b)
  | .nan, _ => .nan
  | _, .nan => .nan
  | .inf, _ => .inf
  | _, .inf => .inf
  | .ninf, x => x
  | x, .ninf => x

/-! ## Record model (the normalized in-memory boring-log record) -/

/-- Optional pair of coordinates plus a coordinate-system label. -/
structure Location where
  coords : List ℚ
  system : String
  deriving DecidableEq

/-- Consultant company/contact/phone block. -/
structure Consultant where
  company : Option String
  contact : Option String
  phone : Option String
  deriving DecidableEq

/-- Driller field: either a bare name string or a structured record. -/
inductive Driller where
  | str (s : String)
  | obj (company name license : Option String)
  deriving DecidableEq

/-- Boring metadata. -/
structure Boring where
  id : String
  project : Option String
  client : Option String
  date : Option String
  time : Option String
  dateStart : Option String
  dateComplete : Option String
  weather : Option String
  elevation : Option ℚ
  location : Option Location
  consultant : Option Consultant
  driller : Option Driller
  equipment : Option String
  drillingMethod : Option String
  loggedBy : Option String
  totalDepth : Option ℚ
  deriving DecidableEq

/-- Soil layer.  `uscs` is optional because the renderer receives whatever
the caller constructed; the renderer itself assumes it is a string. -/
structure Layer where
  depthTop : ℚ
  depthBottom : ℚ
  uscs : Option String
  description : String
  moisture : Option String
  odor : Option String
  pid : Option ℚ
  deriving DecidableEq

/-- Sample: either a single `depth` or a `depthTop`/`depthBottom` interval. -/
structure Sample where
  depth : Option ℚ
  depthTop : Option ℚ
  depthBottom : Option ℚ
  type : String
  id : String
  blows : Option (List ℚ)
  recovery : Option ℚ
  deriving DecidableEq

/-- Groundwater observation. -/
structure Groundwater where
  depth : Option ℚ
  note : Option String
  deriving DecidableEq

/-- Well construction data. -/
structure Well where
  type : Option String
  casingDiameter : Option ℚ
  casingMaterial : Option String
  screenTop : Option ℚ
  screenBottom : Option ℚ
  screenSlotSize : Option ℚ
  filterPack : Option String
  sealTop : Option ℚ
  sealBottom : Option ℚ
  sealMaterial : Option String
  deriving DecidableEq

/-- Model of `Object.keys(well).length > 0`: at least one property present. -/
def Well.nonempty (w : Well) : Bool :=
  w.type.isSome || w.casingDiameter.isSome || w.casingMaterial.isSome ||
  w.screenTop.isSome || w.screenBottom.isSome || w.screenSlotSize.isSome ||
  w.filterPack.isSome || w.sealTop.isSome || w.sealBottom.isSome ||
  w.sealMaterial.isSome

/-- The full boring record handed to the renderer. -/
structure BoringData where
  boring : Boring
  layers : List Layer
  samples : Option (List Sample)
  groundwater : Option Groundwater
  well : Option Well
  deriving DecidableEq

/-! ## Renderer configuration -/

/-- One column of the log table: width and header label. -/
structure ColumnSpec where
  width : ℚ
  label : String
  deriving DecidableEq

/-- The two conditional columns. -/
structure ConditionalColumns where
  odor : ColumnSpec
  pid : ColumnSpec
  deriving DecidableEq

/-- Margin insets. -/
structure Margins where
  top : ℚ
  right : ℚ
  bottom : ℚ
  left : ℚ
  deriving DecidableEq

/-- Color palette. -/
structure Colors where
  border : String
  headerBg : String
  gridLine : String
  groundwater : String
  text : String
  wellCasing : String
  wellScreen : String
  wellSeal : String
  wellFilter : String
  deriving DecidableEq

/-- Renderer configuration (the `this.config` object). -/
structure Config where
  width : ℚ
  headerHeight : ℚ
  footerHeight : ℚ
  legendHeight : ℚ
  wellPanelWidth : ℚ
  showLegend : Bool
  depthScale : ℚ
  margins : Margins
  baseColumns : List (String × ColumnSpec)
  conditionalColumns : ConditionalColumns
  colors : Colors
  deriving DecidableEq

/-- The base columns of the default configuration, in their fixed order. -/
def defaultBaseColumns : List (String × ColumnSpec) :=
  [("depth", ⟨40, "Depth"⟩),
   ("elevation", ⟨45, "Elev."⟩),
   ("graphic", ⟨60, "Soil"⟩),
   ("uscs", ⟨45, "USCS"⟩),
   ("description", ⟨200, "Description"⟩),
   ("moisture", ⟨50, "Moist."⟩),
   ("sample", ⟨50, "Sample"⟩),
   ("spt", ⟨70, "SPT N"⟩),
   ("recovery", ⟨45, "Rec."⟩)]

/-- The default configuration built by the `BoringLog` constructor when no
options are supplied. -/
def defaultConfig : Config where
  width := 700
  headerHeight := 190
  footerHeight := 40
  legendHeight := 140
  wellPanelWidth := 150
  showLegend := true
  depthScale := 20
  margins := ⟨20, 20, 20, 20⟩
  baseColumns := defaultBaseColumns
  conditionalColumns := ⟨⟨55, "Odor"⟩, ⟨45, "PID"⟩⟩
  colors := ⟨"#333", "#f5f5f5", "#ccc", "#0066cc", "#333",
             "#666", "#999", "#8B4513", "#F4A460"⟩

/-! ## Pattern catalog (`createPatternDefs` / `getPatternId`) -/

/-- The fixed pattern table of `createPatternDefs`: classification code to
(tile kind, fill color).  Tile geometry (circles, dots, lines at a 16×16
tile) carries no claim-relevant information and is identified by the kind
string. -/
def patternsTable : List (String × String × String) :=
  [("GW", ("gravel", "#d4a574")),
   ("GP", ("gravel", "#c9956a")),
   ("GM", ("gravel-silt", "#bfae8e")),
   ("GC", ("gravel-clay", "#a89070")),
   ("SW", ("sand", "#f4e4bc")),
   ("SP", ("sand", "#edd9a8")),
   ("SM", ("sand-silt", "#e6d5a8")),
   ("SC", ("sand-clay", "#d9c494")),
   ("ML", ("silt", "#c4d4c4")),
   ("MH", ("silt", "#a8c4a8")),
   ("CL", ("clay", "#8fbc8f")),
   ("CH", ("clay-heavy", "#6b8e6b")),
   ("OL", ("organic", "#8b7355")),
   ("OH", ("organic", "#6b5344")),
   ("PT", ("peat", "#4a3728")),
   ("TS", ("topsoil", "#5d4e37")),
   ("TOPSOIL", ("topsoil", "#5d4e37")),
   ("FILL", ("fill", "#9e9e9e")),
   ("QUA", ("rock", "#d4d4d4")),
   ("ARG", ("rock", "#b8a090")),
   ("ROCK", ("rock", "#c0c0c0")),
   ("BR", ("rock", "#a0a0a0")),
   ("ORGANICS", ("organic", "#6b5344")),
   ("MK", ("silt", "#a8c4a8")),
   ("DEFAULT", ("default", "#e0e0e0"))]

/-- Set `this.knownPatterns`: the codes with a pattern definition. -/
def knownPatterns : List String := patternsTable.map Prod.fst

/-- The pattern identifiers for which `createPatternDefs` emits a
definition (a `<pattern>` element with that id). -/
def validPatternIds : List String := knownPatterns.map (fun c => "pattern-" ++ c)

/-- Lookup `getPatternId` on a string argument: whole upper-cased code first, then
the first hyphen component, then the cross-hatch default. -/
def getPatternIdStr (uscs : String) : String :=
  let upperUSCS := jsToUpper uscs
  let primary := (splitChar '-' upperUSCS).headD ""
  if knownPatterns.contains upperUSCS then "pattern-" ++ upperUSCS
  else if knownPatterns.contains primary then "pattern-" ++ primary
  else "pattern-DEFAULT"

/-- JS runtime error (property access / method call on `undefined`). -/
inductive JsError where
  | typeError
  deriving DecidableEq

/-- Call `getPatternId(layer.uscs)` as invoked by the renderer: calling
`.toUpperCase()` on an absent code throws a `TypeError`. -/
def getPatternId : Option String → Except JsError String
  | some s => .ok (getPatternIdStr s)
  | none => .error .typeError

/-! ## Scene graph

DOM/SVG nodes appended by the renderer, as structured values.  Coordinates
are `JSNum` because some code paths place elements at NaN positions. -/

/-- One vector scene element. -/
inductive Elem where
  /-- a `<pattern>` definition emitted into `<defs>` -/
  | patternDef (id : String) (kind : String) (fill : String)
  /-- a rectangle -/
  | rect (x y w h : JSNum) (fill : String) (stroke : String)
  /-- a text node (content, font-size, fill, font-weight, text-anchor) -/
  | text (x y : JSNum) (content : String) (fontSize : String)
      (fill : String) (fontWeight : Option String) (textAnchor : Option String)
  /-- a line -/
  | line (x1 y1 x2 y2 : JSNum) (stroke : String)
  /-- a triangle polygon -/
  | tri (x1 y1 x2 y2 x3 y3 : JSNum) (fill : String)
  /-- the groundwater wavy path: start point and number of 10-unit arcs -/
  | wave (x y : JSNum) (arcs : ℕ) (stroke : String)
  deriving DecidableEq

/-- The `<defs>` block: one pattern definition per table entry (the
groundwater marker definition is represented by its id as well). -/
def patternDefs : List Elem :=
  patternsTable.map (fun e => Elem.patternDef ("pattern-" ++ e.1) e.2.1 e.2.2)
    ++ [Elem.patternDef "groundwater-triangle" "marker" "#0066cc"]

/-! ## Layout: active column set and column positions -/

/-- Condition `hasOdorData`: some layer has a truthy odor different from "none". -/
def hasOdorData (d : BoringData) : Bool :=
  d.layers.any (fun l => truthy l.odor && l.odor != some "none")

/-- Condition `hasPidData`: some layer has a defined (non-undefined, non-null) pid. -/
def hasPidData (d : BoringData) : Bool :=
  d.layers.any (fun l => l.pid.isSome)

/-- Computation of `this.activeColumns`: the base columns, with the conditional columns
added by property assignment — JS object property assignment appends new
keys after the existing ones, i.e. after `recovery`. -/
def activeColumns (cfg : Config) (d : BoringData) : List (String × ColumnSpec) :=
  cfg.baseColumns
    ++ (if hasOdorData d then [("odor", cfg.conditionalColumns.odor)] else [])
    ++ (if hasPidData d then [("pid", cfg.conditionalColumns.pid)] else [])

/-- Total width `Object.values(columns).reduce((sum, col) => sum + col.width, 0)`. -/
def sumWidths (cols : List (String × ColumnSpec)) : ℚ :=
  cols.foldl (fun s c => s + c.2.width) 0

/-- Running x-positions of the columns (`colPositions` in the renderers):
key, x, width. -/
def colPositions : List (String × ColumnSpec) → ℚ → List (String × ℚ × ℚ)
  | [], _ => []
  | (k, c) :: rest, x => (k, x, c.width) :: colPositions rest (x + c.width)

/-- Unguarded property access `colPositions[key]` — `undefined` if the
column is absent, in which case a subsequent `.x`/`.width` throws. -/
def getPos (ps : List (String × ℚ × ℚ)) (k : String) : Except JsError (ℚ × ℚ) :=
  match ps.lookup k with
  | some p => .ok p
  | none => .error .typeError

/-- Unguarded `columns[key]` on the active-column object. -/
def getSpec (cols : List (String × ColumnSpec)) (k : String) :
    Except JsError ColumnSpec :=
  match cols.lookup k with
  | some c => .ok c
  | none => .error .typeError

/-! ## Header rendering (`renderHeader`)

The header is a sequence of guarded `createText` appends with a running
`y` position; the accumulator helpers below capture exactly the source's
`if (field) { append(text(y)); y += lineHeight }` idiom. -/

/-- Append an element at the current y, then advance y by `dy`. -/
def emitAt (mk : ℚ → Elem) (dy : ℚ) (p : List Elem × ℚ) : List Elem × ℚ :=
  (p.1 ++ [mk p.2], p.2 + dy)

/-- Conditionally append at the current y, then advance y by `dy`. -/
def emitIf (cond : Bool) (mk : ℚ → Elem) (dy : ℚ) (p : List Elem × ℚ) :
    List Elem × ℚ :=
  if cond then emitAt mk dy p else p

/-- Conditionally advance y by `dy` first, then append at the new y
(the `y += lineHeight; append` order used for the GW and weather lines). -/
def emitIfPre (cond : Bool) (mk : ℚ → Elem) (dy : ℚ) (p : List Elem × ℚ) :
    List Elem × ℚ :=
  if cond then (p.1 ++ [mk (p.2 + dy)], p.2 + dy) else p

/-- Advance y without appending. -/
def bumpY (dy : ℚ) (p : List Elem × ℚ) : List Elem × ℚ := (p.1, p.2 + dy)

/-- Helper building a plain `createText` element. -/
def mkText (x y : ℚ) (content fontSize fill : String)
    (fontWeight textAnchor : Option String) : Elem :=
  Elem.text (jq x) (jq y) content fontSize fill fontWeight textAnchor

/-- Truthiness of `groundwater && groundwater.depth !== undefined`. -/
def gwShown (d : BoringData) : Bool :=
  match d.groundwater with
  | some g => g.depth.isSome
  | none => false

/-- Header column 1: project and site info. -/
def headerCol1 (cfg : Config) (d : BoringData) : List Elem :=
  let b := d.boring
  let tc := cfg.colors.text
  let locText :=
    match b.location with
    | some loc =>
        "Location: " ++ jsJoin ", " (loc.coords.map numToStr)
          ++ " (" ++ loc.system ++ ")"
    | none => ""
  let gwText :=
    match d.groundwater with
    | some g =>
        "GW Depth: " ++ jsNumStr g.depth ++ " ft"
          ++ (if truthy g.note then " (" ++ jsStr g.note ++ ")" else "")
    | none => ""
  (emitIfPre (gwShown d)
      (fun y => mkText 10 y gwText "10px" cfg.colors.groundwater none none) 13
    (emitAt (fun y => mkText 10 y ("Total Depth: " ++ jsNumStr b.totalDepth ++ " ft")
        "10px" tc none none) 0
    (emitIf b.elevation.isSome
      (fun y => mkText 10 y ("Surface Elev: " ++ jsNumStr b.elevation ++ " ft")
        "10px" tc none none) 13
    (emitIf b.location.isSome
      (fun y => mkText 10 y locText "9px" tc none none) 13
    (emitIf (truthy b.client)
      (fun y => mkText 10 y ("Client: " ++ jsStr b.client) "10px" tc none none) 13
    (emitAt (fun y => mkText 10 y ("Project: " ++ jsStr b.project) "10px" tc none none) 13
    (emitAt (fun y => mkText 10 y ("BORING LOG: " ++ b.id) "13px" tc
        (some "bold") none) 15
      ([], 16)))))))).1

/-- Header column 2: consultant and drilling info. -/
def headerCol2 (cfg : Config) (d : BoringData) (width : ℚ) : List Elem :=
  let b := d.boring
  let tc := cfg.colors.text
  let x := width / 3
  let afterConsultant : List Elem × ℚ :=
    match b.consultant with
    | some con =>
        emitIf (truthy con.phone)
          (fun y => mkText x y (jsStr con.phone) "10px" tc none none) 13
          (emitIf (truthy con.contact)
            (fun y => mkText x y (jsStr con.contact) "10px" tc none none) 13
          (emitIf (truthy con.company)
            (fun y => mkText x y (jsStr con.company) "10px" tc none none) 13
          (emitAt (fun y => mkText x y "CONSULTANT" "10px" tc (some "bold") none) 13
            ([], 16))))
    | none => ([], 16)
  (emitIf (truthy b.loggedBy)
      (fun y => mkText x y ("Logged By: " ++ jsStr b.loggedBy) "9px" tc none none) 0
    (emitIf (truthy b.equipment)
      (fun y => mkText x y ("Equipment: " ++ jsStr b.equipment) "9px" tc none none) 13
    (emitIf (truthy b.drillingMethod)
      (fun y => mkText x y ("Method: " ++ jsStr b.drillingMethod) "9px" tc none none) 13
    (bumpY 4 afterConsultant)))).1

/-- Header column 3: driller and date info. -/
def headerCol3 (cfg : Config) (d : BoringData) (width : ℚ) : List Elem :=
  let b := d.boring
  let tc := cfg.colors.text
  let x := (width / 3) * 2
  let afterLabel :=
    emitAt (fun y => mkText x y "DRILLER" "10px" tc (some "bold") none) 13 ([], 16)
  let afterDriller : List Elem × ℚ :=
    match b.driller with
    | some (.obj company name license) =>
        emitIf (truthy license)
          (fun y => mkText x y ("License: " ++ jsStr license) "9px" tc none none) 13
          (emitIf (truthy name)
            (fun y => mkText x y (jsStr name) "10px" tc none none) 13
          (emitIf (truthy company)
            (fun y => mkText x y (jsStr company) "10px" tc none none) 13
            afterLabel))
    | some (.str s) =>
        emitIf (s != "") (fun y => mkText x y s "10px" tc none none) 13 afterLabel
    | none => afterLabel
  let dateText :=
    if truthy b.time then jsStr b.date ++ " " ++ jsStr b.time else jsStr b.date
  let afterDates :=
    if truthy b.dateStart && truthy b.dateComplete then
      emitAt (fun y => mkText x y ("Complete: " ++ jsStr b.dateComplete)
          "10px" tc none none) 0
        (emitAt (fun y => mkText x y ("Start: " ++ jsStr b.dateStart)
          "10px" tc none none) 13
        (bumpY 4 afterDriller))
    else
      emitAt (fun y => mkText x y ("Date: " ++ dateText) "10px" tc none none) 0
        (bumpY 4 afterDriller)
  (emitIfPre (truthy b.weather)
      (fun y => mkText x y ("Weather: " ++ jsStr b.weather) "10px" tc none none) 13
    afterDates).1

/-- Full `renderHeader`: background rectangle then the three columns. -/
def renderHeaderElems (cfg : Config) (d : BoringData) (width : ℚ) : List Elem :=
  Elem.rect (jq 0) (jq 0) (jq width) (jq (cfg.headerHeight - 30))
      cfg.colors.headerBg cfg.colors.border
    :: (headerCol1 cfg d ++ headerCol2 cfg d width ++ headerCol3 cfg d width)

/-! ## Column headers (`renderColumnHeaders`) -/

/-- Per-column separator line and centered label, threading the running x. -/
def columnHeaderCells (colors : Colors) (y : ℚ) :
    List (String × ColumnSpec) → ℚ → List Elem
  | [], _ => []
  | (_, c) :: rest, x =>
      Elem.line (jq x) (jq y) (jq x) (jq (y + 30)) colors.border
        :: mkText (x + c.width / 2) (y + 20) c.label "9px" colors.text
            (some "bold") (some "middle")
        :: columnHeaderCells colors y rest (x + c.width)

/-- Header-row background plus one cell per active column. -/
def renderColumnHeaders (cfg : Config) (cols : List (String × ColumnSpec))
    (y : ℚ) : List Elem :=
  Elem.rect (jq 0) (jq y) (jq (sumWidths cols)) (jq 30) "#e8e8e8" cfg.colors.border
    :: columnHeaderCells cfg.colors y cols 0

/-! ## Depth and elevation scale (`renderDepthScale`) -/

/-- Values taken by `for (let d = 0; d <= totalDepth; d += interval)`. -/
def tickValues (totalDepth interval : ℚ) : List ℚ :=
  if totalDepth < 0 then []
  else (List.range ((⌊totalDepth / interval⌋).toNat + 1)).map
    (fun k => (k : ℚ) * interval)

/-- Elements emitted for one depth tick. -/
def tickElems (cfg : Config) (depthColWidth elevColWidth totalWidth : ℚ)
    (surfaceElevation : Option ℚ) (startY totalDepth : ℚ) (d : ℚ) : List Elem :=
  let y := startY + d * cfg.depthScale
  [Elem.line (jq (depthColWidth - 10)) (jq y) (jq depthColWidth) (jq y)
      cfg.colors.border,
   mkText (depthColWidth - 15) (y + 4) (numToStr d) "9px" cfg.colors.text
      none (some "end")]
  ++ (match surfaceElevation with
      | some elev =>
          [mkText (depthColWidth + elevColWidth / 2) (y + 4) (toFixed1 (elev - d))
            "8px" cfg.colors.text none (some "middle")]
      | none => [])
  ++ (if 0 < d ∧ d < totalDepth then
        [Elem.line (jq (depthColWidth + elevColWidth)) (jq y) (jq totalWidth)
          (jq y) cfg.colors.gridLine]
      else [])

/-- Depth/elevation column backgrounds plus the tick loop. -/
def renderDepthScale (cfg : Config) (cols : List (String × ColumnSpec))
    (d : BoringData) (startY height totalDepth : ℚ) :
    Except JsError (List Elem) := do
  let depthC ← getSpec cols "depth"
  let elevC ← getSpec cols "elevation"
  let interval : ℚ := if totalDepth ≤ 20 then 2 else 5
  let totalWidth := sumWidths cols
  .ok ([Elem.rect (jq 0) (jq startY) (jq depthC.width) (jq height) "white"
          cfg.colors.border,
        Elem.rect (jq depthC.width) (jq startY) (jq elevC.width) (jq height)
          "white" cfg.colors.border]
    ++ (tickValues totalDepth interval).flatMap
        (tickElems cfg depthC.width elevC.width totalWidth d.boring.elevation
          startY totalDepth))

/-! ## Soil layers (`renderSoilLayers`, `renderWrappedText`) -/

/-- Word-wrap loop of `renderWrappedText`; text width is measured by the
code's non-browser fallback `testLine.length * 5`.  Returns the emitted
lines plus the pending line and its y. -/
def wrapLoop (textColor : String) (x y maxWidth maxHeight : ℚ) :
    List String → String → ℚ → List Elem × String × ℚ
  | [], line, lineY => ([], line, lineY)
  | w :: ws, line, lineY =>
      let testLine := if line == "" then w else line ++ " " ++ w
      let wpx : ℚ := (testLine.length : ℚ) * 5
      if wpx > maxWidth ∧ line ≠ "" then
        if lineY - y + 12 > maxHeight then ([], line, lineY)
        else
          let r := wrapLoop textColor x y maxWidth maxHeight ws w (lineY + 12)
          (mkText x lineY line "10px" textColor none none :: r.1, r.2)
      else wrapLoop textColor x y maxWidth maxHeight ws testLine lineY

/-- Wrapped description text constrained to the column width and the band
height; overflow lines are dropped. -/
def renderWrappedText (textColor : String) (text : String)
    (x y maxWidth maxHeight : ℚ) : List Elem :=
  let r := wrapLoop textColor x y maxWidth maxHeight (splitChar ' ' text) "" y
  r.1 ++ (if r.2.1 ≠ "" ∧ r.2.2 - y + 12 ≤ maxHeight then
            [mkText x r.2.2 r.2.1 "10px" textColor none none]
          else [])

/-- Elements of one soil layer (the body of the `for (const layer of
layers)` loop); positions of the always-accessed columns are passed in,
the guarded ones as options. -/
def renderLayer (cfg : Config) (graphicP uscsP descP : ℚ × ℚ)
    (moistureP odorP pidP : Option (ℚ × ℚ)) (startY : ℚ) (l : Layer) :
    Except JsError (List Elem) := do
  let patternId ← getPatternId l.uscs
  let y1 := startY + l.depthTop * cfg.depthScale
  let y2 := startY + l.depthBottom * cfg.depthScale
  let layerHeight := y2 - y1
  let centerY := y1 + layerHeight / 2 + 4
  let moistElems :=
    match moistureP, truthy l.moisture with
    | some mp, true =>
        [mkText (mp.1 + mp.2 / 2) centerY (jsStr l.moisture) "8px"
          cfg.colors.text none (some "middle")]
    | _, _ => []
  let odorElems :=
    match odorP, l.odor with
    | some op, some o =>
        if o != "" then
          let odorText :=
            if o = "petroleum" then "petrol."
            else if o = "chlorinated" then "chlor."
            else if o = "organic" then "org." else o
          [mkText (op.1 + op.2 / 2) centerY odorText "8px"
            (if o ≠ "none" then "#c00" else cfg.colors.text) none (some "middle")]
        else []
    | _, _ => []
  let pidElems :=
    match pidP, l.pid with
    | some pp, some pv =>
        [mkText (pp.1 + pp.2 / 2) centerY (toFixed1 pv) "8px"
          (if pv > 50 then "#c00" else cfg.colors.text) none (some "middle")]
    | _, _ => []
  let boundaryElems :=
    if l.depthTop > 0 then
      [Elem.line (jq graphicP.1) (jq y1) (jq (descP.1 + descP.2)) (jq y1)
        cfg.colors.border]
    else []
  .ok ([Elem.rect (jq graphicP.1) (jq y1) (jq graphicP.2) (jq layerHeight)
          ("url(#" ++ patternId ++ ")") cfg.colors.border,
        mkText (uscsP.1 + uscsP.2 / 2) centerY (jsStr l.uscs) "9px"
          cfg.colors.text (some "bold") (some "middle")]
    ++ renderWrappedText cfg.colors.text l.description (descP.1 + 3) (y1 + 12)
        (descP.2 - 6) (layerHeight - 8)
    ++ moistElems ++ odorElems ++ pidElems ++ boundaryElems)

/-- Loop over all layers, concatenating each layer's elements. -/
def renderLayersLoop (cfg : Config) (graphicP uscsP descP : ℚ × ℚ)
    (moistureP odorP pidP : Option (ℚ × ℚ)) (startY : ℚ) :
    List Layer → Except JsError (List Elem)
  | [] => .ok []
  | l :: ls => do
      let es ← renderLayer cfg graphicP uscsP descP moistureP odorP pidP startY l
      let rest ← renderLayersLoop cfg graphicP uscsP descP moistureP odorP pidP
        startY ls
      .ok (es ++ rest)

/-- White background rectangles for the columns after the description. -/
def bgRects (ps : List (String × ℚ × ℚ)) (startY height : ℚ) (border : String) :
    List Elem :=
  ["uscs", "moisture", "odor", "pid", "sample", "spt", "recovery"].flatMap
    (fun k =>
      match ps.lookup k with
      | some p => [Elem.rect (jq p.1) (jq startY) (jq p.2) (jq height)
          "white" border]
      | none => [])

/-- Full `renderSoilLayers` (the loop-invariant column positions of the
unconditionally-accessed columns are resolved up front). -/
def renderSoilLayers (cfg : Config) (cols : List (String × ColumnSpec))
    (d : BoringData) (startY height : ℚ) : Except JsError (List Elem) := do
  let ps := colPositions cols 0
  let graphicP ← getPos ps "graphic"
  let uscsP ← getPos ps "uscs"
  let descP ← getPos ps "description"
  let es ← renderLayersLoop cfg graphicP uscsP descP (ps.lookup "moisture")
    (ps.lookup "odor") (ps.lookup "pid") startY d.layers
  .ok (es ++ bgRects ps startY height cfg.colors.border)

/-! ## Samples (`renderSamples`) -/

/-- JS template-literal interpolation of a `JSNum`. -/
def jnumStr : JSNum → String
  | .num q => numToStr q
  | .nan => "NaN"
  | .inf => "Infinity"
  | .ninf => "-Infinity"

/-- SPT N-value block: emitted only for a truthy `blows` array of length
exactly 3; N is the sum of the 2nd and 3rd blow counts. -/
def sptLabels (textColor : String) (sptX sptW : ℚ) (y : JSNum) (s : Sample) :
    List Elem :=
  match s.blows with
  | some blows =>
      if blows.length = 3 then
        let nValue := blows.getD 1 0 + blows.getD 2 0
        let blowsText := jsJoin "-" (blows.map numToStr)
        [Elem.text (jq (sptX + sptW / 2)) (jsub y (jq 2))
            ("N=" ++ numToStr nValue) "9px" textColor (some "bold") (some "middle"),
         Elem.text (jq (sptX + sptW / 2)) (jadd y (jq 9))
            ("(" ++ blowsText ++ ")") "7px" "#666" none (some "middle")]
      else []
  | none => []

/-- Center depth of a sample marker (`centerDepth` in the sample loop).
Depth arithmetic runs in `JSNum` because a missing depth is `undefined`
and propagates as NaN. -/
def sampleCenterDepth (s : Sample) : JSNum :=
  let hasRange := s.depthTop.isSome && s.depthBottom.isSome
  let depthTop : JSNum := if hasRange then jsOfOpt s.depthTop else jsOfOpt s.depth
  let depthBottom : JSNum :=
    if hasRange then jsOfOpt s.depthBottom else jsOfOpt s.depth
  if hasRange then jdiv (jadd depthTop depthBottom) (jq 2) else jsOfOpt s.depth

/-- Elements of one sample (the body of the `for (const sample of samples)`
loop continued). -/
def renderSampleElems (cfg : Config) (sampleP sptP recoveryP : ℚ × ℚ)
    (depthW elevW : ℚ) (startY : ℚ) (s : Sample) : List Elem :=
  let hasRange := s.depthTop.isSome && s.depthBottom.isSome
  let depthTop : JSNum := if hasRange then jsOfOpt s.depthTop else jsOfOpt s.depth
  let depthBottom : JSNum :=
    if hasRange then jsOfOpt s.depthBottom else jsOfOpt s.depth
  let y := jadd (jq startY) (jmul (sampleCenterDepth s) (jq cfg.depthScale))
  let markerHeight : JSNum :=
    if hasRange then jmax (jq 16) (jmul (jsub depthBottom depthTop) (jq cfg.depthScale))
    else jq 16
  let markerY : JSNum :=
    if hasRange then jadd (jq startY) (jmul depthTop (jq cfg.depthScale))
    else jsub y (jq 8)
  let idElems :=
    if hasRange then
      [Elem.text (jq (sampleP.1 + sampleP.2 / 2))
          (jsub (jadd markerY (jdiv markerHeight (jq 2))) (jq 3)) s.id "7px"
          cfg.colors.text none (some "middle"),
       Elem.text (jq (sampleP.1 + sampleP.2 / 2))
          (jadd (jadd markerY (jdiv markerHeight (jq 2))) (jq 7))
          ("(" ++ jnumStr depthTop ++ "-" ++ jnumStr depthBottom ++ ")") "6px"
          "#666" none (some "middle")]
    else
      [Elem.text (jq (sampleP.1 + sampleP.2 / 2)) (jadd y (jq 4)) s.id "7px"
          cfg.colors.text none (some "middle")]
  let recoveryElems :=
    match s.recovery with
    | some r =>
        [Elem.text (jq (recoveryP.1 + recoveryP.2 / 2)) (jadd y (jq 4))
          (numToStr r) "9px" cfg.colors.text none (some "middle")]
    | none => []
  let depthLineY := if hasRange
    then jadd (jq startY) (jmul depthTop (jq cfg.depthScale)) else y
  Elem.rect (jq (sampleP.1 + 3)) markerY (jq (sampleP.2 - 6)) markerHeight
      (if s.type == "SPT" then "#fff3cd" else "#d4edda") cfg.colors.border
    :: idElems
    ++ sptLabels cfg.colors.text sptP.1 sptP.2 y s
    ++ recoveryElems
    ++ [Elem.line (jq (depthW + elevW)) depthLineY (jq sampleP.1) depthLineY "#999"]

/-- Full `renderSamples`: returns nothing when `samples` is absent.  The
loop-invariant column positions are resolved up front (the source reads
them inside the loop; they do not change across iterations). -/
def renderSamples (cfg : Config) (cols : List (String × ColumnSpec))
    (d : BoringData) (startY : ℚ) : Except JsError (List Elem) :=
  match d.samples with
  | none => .ok []
  | some samples => do
      let ps := colPositions cols 0
      let sampleP ← getPos ps "sample"
      let sptP ← getPos ps "spt"
      let recoveryP ← getPos ps "recovery"
      let depthP ← getPos ps "depth"
      let elevP ← getPos ps "elevation"
      .ok (samples.flatMap
        (renderSampleElems cfg sampleP sptP recoveryP depthP.2 elevP.2 startY))

/-! ## Groundwater marker (`renderGroundwater`) -/

/-- Number of 10-unit arcs drawn by `for (let x = 0; x < waveWidth; x += 10)`. -/
def waveArcs (waveWidth : ℚ) : ℕ :=
  if waveWidth ≤ 0 then 0 else (⌈waveWidth / 10⌉).toNat

/-- Triangle marker plus wavy line at the mapped groundwater depth. -/
def renderGroundwater (cfg : Config) (cols : List (String × ColumnSpec))
    (d : BoringData) (startY : ℚ) : Except JsError (List Elem) :=
  match d.groundwater with
  | none => .ok []
  | some g =>
      match g.depth with
      | none => .ok []
      | some gd => do
          let depthC ← getSpec cols "depth"
          let graphicC ← getSpec cols "graphic"
          let y := startY + gd * cfg.depthScale
          let graphicX := depthC.width
          .ok [Elem.tri (jq graphicX) (jq y) (jq (graphicX - 8)) (jq (y - 8))
                  (jq (graphicX - 8)) (jq (y + 8)) cfg.colors.groundwater,
               Elem.wave (jq graphicX) (jq y) (waveArcs graphicC.width)
                  cfg.colors.groundwater]

/-! ## Border (`renderBorder`) -/

/-- Outer border rectangle. -/
def renderBorder (cfg : Config) (width height : ℚ) : List Elem :=
  [Elem.rect (jq 0) (jq 0) (jq width) (jq height) "none" cfg.colors.border]

/-! ## Well construction panel (`renderWellPanel`) -/

/-- Well panel: borehole outline, optional seal, optional filter pack and
screen, casing lines, and detail text. -/
def renderWellPanel (cfg : Config) (w : Well) (startX startY height totalDepth : ℚ) :
    List Elem :=
  let diagramX := startX + 20
  let diagramWidth : ℚ := 40
  let diagramTop := startY + 25
  let diagramHeight := height - 50
  let getY := fun (dep : ℚ) => diagramTop + (dep / totalDepth) * diagramHeight
  let sealElems :=
    match w.sealTop, w.sealBottom with
    | some st, some sb =>
        let sealY1 := getY st
        let sealY2 := getY sb
        [Elem.rect (jq (diagramX + 5)) (jq sealY1) (jq (diagramWidth - 10))
            (jq (sealY2 - sealY1)) cfg.colors.wellSeal cfg.colors.border,
         mkText (startX + cfg.wellPanelWidth - 5) ((sealY1 + sealY2) / 2 + 4)
            "Seal" "7px" cfg.colors.text none (some "end")]
    | _, _ => []
  let screenElems :=
    match w.screenTop, w.screenBottom with
    | some st, some sb =>
        let filterY1 := getY st
        let filterY2 := getY sb
        [Elem.rect (jq (diagramX + 5)) (jq filterY1) (jq (diagramWidth - 10))
            (jq (filterY2 - filterY1)) cfg.colors.wellFilter cfg.colors.border,
         Elem.rect (jq (diagramX + (diagramWidth - 16) / 2)) (jq filterY1)
            (jq 16) (jq (filterY2 - filterY1)) "white" cfg.colors.wellScreen,
         mkText (startX + cfg.wellPanelWidth - 5) ((filterY1 + filterY2) / 2 + 4)
            "Screen" "7px" cfg.colors.text none (some "end")]
    | _, _ => []
  let casingBottom :=
    match w.screenTop with
    | some st => getY st
    | none => diagramTop + diagramHeight * (1 / 2)
  let detailsY := startY + height - 20
  let casingDetail :=
    match w.casingDiameter with
    | some cd =>
        if cd ≠ 0 then
          [mkText (startX + 5) detailsY
            ("Casing: " ++ numToStr cd ++ "\" "
              ++ (if truthy w.casingMaterial then jsStr w.casingMaterial else ""))
            "7px" cfg.colors.text none none]
        else []
    | none => []
  let slotDetail :=
    match w.screenSlotSize with
    | some sl =>
        if sl ≠ 0 then
          [mkText (startX + 5) (detailsY - (casingDetail.length : ℚ) * 10)
            ("Slot: " ++ numToStr sl ++ "\"") "7px" cfg.colors.text none none]
        else []
    | none => []
  [Elem.rect (jq startX) (jq startY) (jq cfg.wellPanelWidth) (jq height)
      "#fafafa" cfg.colors.border,
   mkText (startX + cfg.wellPanelWidth / 2) (startY + 15) "WELL CONSTRUCTION"
      "9px" cfg.colors.text (some "bold") (some "middle"),
   Elem.rect (jq diagramX) (jq diagramTop) (jq diagramWidth) (jq diagramHeight)
      "#f0f0f0" cfg.colors.border]
  ++ sealElems ++ screenElems
  ++ [Elem.line (jq (diagramX + (diagramWidth - 16) / 2)) (jq diagramTop)
        (jq (diagramX + (diagramWidth - 16) / 2)) (jq casingBottom)
        cfg.colors.wellCasing,
      Elem.line (jq (diagramX + (diagramWidth + 16) / 2)) (jq diagramTop)
        (jq (diagramX + (diagramWidth + 16) / 2)) (jq casingBottom)
        cfg.colors.wellCasing]
  ++ casingDetail ++ slotDetail

/-! ## Legend (`renderLegend`) -/

/-- USCS and extended soil descriptions used by the legend. -/
def allDescriptions : List (String × String) :=
  [("GW", "Well-graded gravel"),
   ("GP", "Poorly graded gravel"),
   ("GM", "Silty gravel"),
   ("GC", "Clayey gravel"),
   ("SW", "Well-graded sand"),
   ("SP", "Poorly graded sand"),
   ("SM", "Silty sand"),
   ("SC", "Clayey sand"),
   ("ML", "Silt (low plasticity)"),
   ("MH", "Silt (high plasticity)"),
   ("CL", "Clay (low plasticity)"),
   ("CH", "Clay (high plasticity)"),
   ("OL", "Organic silt"),
   ("OH", "Organic clay"),
   ("PT", "Peat"),
   ("TS", "Topsoil"),
   ("TOPSOIL", "Topsoil"),
   ("FILL", "Fill material"),
   ("QUA", "Quartz"),
   ("ARG", "Argillite"),
   ("ROCK", "Rock"),
   ("BR", "Bedrock"),
   ("ORGANICS", "Organic material"),
   ("MK", "Micaceous silt")]

/-- Sample-type descriptions used by the legend. -/
def sampleTypeDescriptions : List (String × String) :=
  [("SPT", "Standard Penetration Test"),
   ("SHELBY", "Shelby Tube Sample"),
   ("GRAB", "Grab Sample"),
   ("CORE", "Core Sample"),
   ("AUGER", "Auger Sample")]

/-- JS `Set.add`: insertion-ordered, duplicates ignored. -/
def addUnique (l : List String) (x : String) : List String :=
  if l.contains x then l else l ++ [x]

/-- Distinct classification codes actually used, splitting dual codes into
both constituent parts (`.toUpperCase()` throws on an absent code). -/
def collectCodes (acc : List String) : List Layer → Except JsError (List String)
  | [] => .ok acc
  | l :: ls =>
      match l.uscs with
      | none => .error .typeError
      | some u => collectCodes ((splitChar '-' (jsToUpper u)).foldl addUnique acc) ls

/-- Distinct upper-cased sample types, in insertion order. -/
def collectSampleTypes (acc : List String) : List Sample → List String
  | [] => acc
  | s :: ss => collectSampleTypes (addUnique acc (jsToUpper s.type)) ss

/-- Legend description for a code: table entry, else the code itself. -/
def descFor (code : String) : String :=
  match allDescriptions.lookup code with
  | some de => if de = "" then code else de
  | none => code

/-- Swatch, code label and description for each sorted legend entry
(`index` drives the up-to-4-column grid placement). -/
def legendEntryElems (cfg : Config) (columnsN : ℕ) (colWidth : JSNum)
    (contentStartY : ℚ) : List (ℕ × String × String) → List Elem
  | [] => []
  | (index, code, description) :: rest =>
      let x := jadd (jq 10) (jmul (jq (index % columnsN)) colWidth)
      let y : JSNum := jq (contentStartY + (index / columnsN : ℕ) * 22)
      Elem.rect x y (jq 16) (jq 16) ("url(#pattern-" ++ code ++ ")")
          cfg.colors.border
        :: Elem.text (jadd x (jq 21)) (jadd y (jq 12)) code "9px"
            cfg.colors.text (some "bold") none
        :: Elem.text (jadd x (jq 44)) (jadd y (jq 12)) description "8px"
            "#555" none none
        :: legendEntryElems cfg columnsN colWidth contentStartY rest

/-- Sample-type swatches on the symbols row, threading `symbolX += 180`. -/
def sampleSymbolElems (cfg : Config) (symbolsY : JSNum) :
    List String → ℚ → List Elem
  | [], _ => []
  | t :: ts, symbolX =>
      let description :=
        match sampleTypeDescriptions.lookup t with
        | some de => if de = "" then t else de
        | none => t
      Elem.rect (jq symbolX) symbolsY (jq 16) (jq 16)
          (if t == "SPT" then "#fff3cd" else "#d4edda") cfg.colors.border
        :: Elem.text (jq (symbolX + 21)) (jadd symbolsY (jq 12)) t "9px"
            cfg.colors.text (some "bold") none
        :: Elem.text (jq (symbolX + 61)) (jadd symbolsY (jq 12)) description
            "8px" "#555" none none
        :: sampleSymbolElems cfg symbolsY ts (symbolX + 180)

/-- Full `renderLegend`.  With zero distinct codes the column count
`Math.min(0, 4)` is 0, so `Math.ceil(0/0)` and all heights derived from it
are NaN; the computation therefore runs in `JSNum`. -/
def renderLegend (cfg : Config) (d : BoringData) (startY width : ℚ) :
    Except JsError (List Elem) := do
  let usedCodes ← collectCodes [] d.layers
  let entries := stableSort (fun a b => a.1 ≤ b.1)
    (usedCodes.map (fun c => (c, descFor c)))
  let hasGroundwater := gwShown d
  let hasSamples :=
    match d.samples with
    | some ss => decide (0 < ss.length)
    | none => false
  let columnsN := min entries.length 4
  let rows := jceil (jdiv (jq entries.length) (jq columnsN))
  let symbolsRowHeight : ℚ := if hasSamples || hasGroundwater then 28 else 0
  let contentHeight := jadd (jmul rows (jq 22)) (jq symbolsRowHeight)
  let dynamicLegendHeight := jadd (jq 40) contentHeight
  let colWidth := jdiv (jq (width - 20)) (jq columnsN)
  let contentStartY := startY + 35
  let symbolsY := jadd (jq contentStartY) (jadd (jmul rows (jq 22)) (jq 8))
  let usedSampleTypes :=
    match d.samples with
    | some ss => collectSampleTypes [] ss
    | none => []
  let finalSymbolX : ℚ := 10 + 180 * usedSampleTypes.length
  .ok ([Elem.rect (jq 0) (jq startY) (jq width) dynamicLegendHeight "#fafafa"
          cfg.colors.border,
        mkText 10 (startY + 18) "LEGEND" "11px" cfg.colors.text (some "bold") none]
    ++ legendEntryElems cfg columnsN colWidth contentStartY entries.enum
    ++ sampleSymbolElems cfg symbolsY usedSampleTypes 10
    ++ (if hasGroundwater then
          [Elem.tri (jq (finalSymbolX + 8)) (jadd symbolsY (jq 8))
              (jq finalSymbolX) symbolsY (jq finalSymbolX)
              (jadd symbolsY (jq 16)) cfg.colors.groundwater,
           Elem.text (jq (finalSymbolX + 15)) (jadd symbolsY (jq 12))
              "Groundwater level" "9px" cfg.colors.text none none]
        else []))

/-! ## Top-level `render` -/

/-- Effective total depth: `this.data.boring.totalDepth || 30`. -/
def effTotalDepth (d : BoringData) : ℚ :=
  match d.boring.totalDepth with
  | some t => if t = 0 then 30 else t
  | none => 30

/-- Truthiness of `this.data.well && Object.keys(this.data.well).length > 0`. -/
def hasWell (d : BoringData) : Bool :=
  match d.well with
  | some w => w.nonempty
  | none => false

/-- Full render pass: clears the container (`innerHTML = ''`, so the prior
content is discarded) and rebuilds the entire scene from the record and
the configuration.  The result is the new container content. -/
def render (container : List Elem) (d : BoringData) (cfg : Config) :
    Except JsError (List Elem) :=
  let _ := container
  let totalDepth := effTotalDepth d
  let graphicHeight := totalDepth * cfg.depthScale
  let legendSpace : ℚ := if cfg.showLegend then cfg.legendHeight else 0
  let active := activeColumns cfg d
  let columnsWidth := sumWidths active
  let wellSpace : ℚ := if hasWell d then cfg.wellPanelWidth + 10 else 0
  let width := columnsWidth + wellSpace + cfg.margins.left + cfg.margins.right
  let height := cfg.headerHeight + graphicHeight + cfg.footerHeight
    + legendSpace + cfg.margins.top + cfg.margins.bottom
  -- `width` and `height` become the `<svg>` width/height/viewBox attributes,
  -- which the scene-graph model does not record.
  let _ := width
  do
    let scaleElems ← renderDepthScale cfg active d cfg.headerHeight
      graphicHeight totalDepth
    let layerElems ← renderSoilLayers cfg active d cfg.headerHeight graphicHeight
    let sampleElems ← renderSamples cfg active d cfg.headerHeight
    let gwElems ← renderGroundwater cfg active d cfg.headerHeight
    let wellElems :=
      match d.well with
      | some w =>
          if w.nonempty then
            renderWellPanel cfg w (columnsWidth + 10) cfg.headerHeight
              graphicHeight totalDepth
          else []
      | none => []
    let legendElems ←
      if cfg.showLegend then
        renderLegend cfg d (cfg.headerHeight + graphicHeight + cfg.footerHeight)
          (columnsWidth + wellSpace)
      else .ok []
    .ok (patternDefs
      ++ renderHeaderElems cfg d (columnsWidth + wellSpace)
      ++ renderColumnHeaders cfg active (cfg.headerHeight - 30)
      ++ scaleElems ++ layerElems ++ sampleElems ++ gwElems ++ wellElems
      ++ legendElems
      ++ renderBorder cfg (columnsWidth + wellSpace)
          (height - cfg.margins.top - cfg.margins.bottom))

/-! ## CSV ingestion (`parseBoringLogCSV` and helpers) -/

/-- Digit run to natural number. -/
def digitsToNat (ds : List Char) : ℕ :=
  ds.foldl (fun n c => n * 10 + (c.toNat - 48)) 0

/-- Model of JS `parseFloat`: skip leading whitespace, optional sign,
longest valid decimal prefix with optional fraction and exponent; no valid
mantissa digit gives NaN, modelled as `none`.  (The JS literal
`"Infinity"`, which `parseFloat` maps to the double Infinity, is not
representable in `ℚ` and is also mapped to `none`.) -/
def jsParseFloat (s : String) : Option ℚ :=
  let cs0 := s.toList.dropWhile Char.isWhitespace
  let sgn : ℚ := match cs0 with
    | '-' :: _ => -1
    | _ => 1
  let cs := match cs0 with
    | '-' :: rest => rest
    | '+' :: rest => rest
    | _ => cs0
  let intDigits := cs.takeWhile Char.isDigit
  let cs1 := cs.dropWhile Char.isDigit
  let fracDigits := match cs1 with
    | '.' :: rest => rest.takeWhile Char.isDigit
    | _ => []
  let cs2 := match cs1 with
    | '.' :: rest => rest.dropWhile Char.isDigit
    | _ => cs1
  if intDigits.isEmpty ∧ fracDigits.isEmpty then none
  else
    let sgnInt : ℤ := if sgn < 0 then -1 else 1
    let base : ℤ :=
      (digitsToNat intDigits * 10 ^ fracDigits.length + digitsToNat fracDigits : ℕ)
    let expVal : ℤ := match cs2 with
      | e :: rest =>
          if e = 'e' ∨ e = 'E' then
            match rest with
            | '-' :: ds =>
                if (ds.takeWhile Char.isDigit).isEmpty then 0
                else -(digitsToNat (ds.takeWhile Char.isDigit) : ℤ)
            | '+' :: ds =>
                if (ds.takeWhile Char.isDigit).isEmpty then 0
                else (digitsToNat (ds.takeWhile Char.isDigit) : ℤ)
            | ds =>
                if (ds.takeWhile Char.isDigit).isEmpty then 0
                else (digitsToNat (ds.takeWhile Char.isDigit) : ℤ)
          else 0
      | [] => 0
    -- value = sign × (int.frac) × 10^exp, assembled as one exact fraction
    some (mkRat (sgnInt * base * 10 ^ expVal.toNat)
      (10 ^ fracDigits.length * 10 ^ (-expVal).toNat))

/-- Scanner mode of the `parseCSVRows` character loop.  The source
consumes two characters at once for an escaped quote and for CRLF; the
modes `quoteEnd` and `crSeen` carry that one-character lookahead so the
loop advances one character per step. -/
inductive CsvMode where
  | normal
  | inQuotes
  /-- a `"` was read inside quotes; the next character decides -/
  | quoteEnd
  /-- a `\r` was read outside quotes; the next character decides -/
  | crSeen
  deriving DecidableEq

/-- Accumulators of the `parseCSVRows` loop. -/
structure CsvState where
  mode : CsvMode
  field : String
  row : List String
  rows : List (List String)
  deriving DecidableEq

/-- Out-of-quotes character handling: opening quote, delimiter, newline,
CR lookahead, or ordinary character. -/
def csvStepNormal (delim : Char) (st : CsvState) (c : Char) : CsvState :=
  if c = '"' then { st with mode := .inQuotes }
  else if c = delim then { st with field := "", row := st.row ++ [st.field] }
  else if c = '\n' then
    { st with field := "", row := [], rows := st.rows ++ [st.row ++ [st.field]] }
  else if c = '\r' then { st with mode := .crSeen }
  else { st with field := st.field.push c }

/-- One character of the `parseCSVRows` loop. -/
def csvStep (delim : Char) (st : CsvState) (c : Char) : CsvState :=
  match st.mode with
  | .normal => csvStepNormal delim st c
  | .inQuotes =>
      if c = '"' then { st with mode := .quoteEnd }
      else { st with field := st.field.push c }
  | .quoteEnd =>
      -- `""` inside quotes is an escaped quote; anything else closed the field
      if c = '"' then { st with mode := .inQuotes, field := st.field.push '"' }
      else csvStepNormal delim { st with mode := .normal } c
  | .crSeen =>
      -- `\r\n` ends the row; a lone `\r` is skipped
      if c = '\n' then
        { st with
            mode := .normal
            field := ""
            row := []
            rows := st.rows ++ [st.row ++ [st.field]] }
      else csvStepNormal delim { st with mode := .normal } c

/-- Split CSV text into rows of fields (quoted fields may contain the
delimiter and newlines); a pending field or row is flushed at the end. -/
def parseCSVRows (content : String) (delim : Char) : List (List String) :=
  let st := content.toList.foldl (csvStep delim) ⟨.normal, "", [], []⟩
  if st.field ≠ "" ∨ st.row ≠ [] then st.rows ++ [st.row ++ [st.field]]
  else st.rows

/-- Character class `[a-z0-9]` of the normalization regex. -/
def isLowerAlnum (c : Char) : Bool :=
  (('a' ≤ c) && (c ≤ 'z')) || (('0' ≤ c) && (c ≤ '9'))

/-- Collapse consecutive underscores (effect of replacing each maximal
run of non-alphanumerics by a single underscore). -/
def collapseUnderscores : List Char → List Char
  | [] => []
  | [c] => [c]
  | a :: b :: rest =>
      if a = '_' ∧ b = '_' then collapseUnderscores (b :: rest)
      else a :: collapseUnderscores (b :: rest)

/-- Drop one leading underscore (`/^_/`). -/
def stripLeadUnderscore : List Char → List Char
  | '_' :: rest => rest
  | l => l

/-- Model of `normalizeColumnName`: lower-case, trim, replace runs of
non-alphanumerics by `_`, strip one leading and one trailing `_`. -/
def normalizeColumnName (name : String) : String :=
  let cs := ((jsTrim (jsToLower name)).toList).map
    (fun c => if isLowerAlnum c then c else '_')
  String.mk
    ((stripLeadUnderscore (collapseUnderscores cs).reverse).reverse
      |> stripLeadUnderscore)

/-- Column index mapping: JS object assignment in header order, so the
last occurrence of a duplicated column name wins. -/
def colIdx (header : List String) (name : String) : Option ℕ :=
  ((header.enum.filter (fun p => p.2 == name)).map Prod.fst).getLast?

/-- Cell accessor: empty string for a missing column or a missing cell,
trimmed otherwise. -/
def getCell (header row : List String) (colName : String) : String :=
  match colIdx header colName with
  | some idx => jsTrim (row.getD idx "")
  | none => ""

/-- Numeric cell accessor: `parseFloat`, with NaN mapped to null/absent. -/
def getNumericCell (header row : List String) (colName : String) : Option ℚ :=
  jsParseFloat (getCell header row colName)

/-- Value of a guarded metadata update
`if (colIndex[c] !== undefined && getCell(row, c)) x = getCell(row, c)`. -/
def strCell (header row : List String) (colName : String) : Option String :=
  if (colIdx header colName).isSome ∧ getCell header row colName ≠ "" then
    some (getCell header row colName)
  else none

/-- Value of a guarded numeric metadata update. -/
def numCell (header row : List String) (colName : String) : Option ℚ :=
  if (colIdx header colName).isSome then getNumericCell header row colName
  else none

/-- Parser options (after merging the caller's options over the defaults).
The default `date` comes from the environment clock; it is a plain field
here.  The `driller` default exists in the source but is never read. -/
structure ParseConfig where
  delimiter : Char
  boringId : String
  project : String
  date : String
  driller : String
  deriving DecidableEq

/-- Mutable metadata accumulators of the row loop (last non-empty value
wins). -/
structure MetaAcc where
  metaBoringId : String
  metaProject : String
  metaClient : Option String
  metaDate : String
  metaTime : Option String
  metaWeather : Option String
  metaElevation : Option ℚ
  metaCoord1 : Option ℚ
  metaCoord2 : Option ℚ
  metaCoordSystem : Option String
  consultantCompany : Option String
  consultantContact : Option String
  consultantPhone : Option String
  drillerCompany : Option String
  drillerName : Option String
  drillerLicense : Option String
  groundwaterDepth : Option ℚ
  groundwaterNote : Option String
  wellType : Option String
  wellCasingDiameter : Option ℚ
  wellCasingMaterial : Option String
  wellScreenTop : Option ℚ
  wellScreenBottom : Option ℚ
  wellScreenSlotSize : Option ℚ
  wellFilterPack : Option String
  wellSealTop : Option ℚ
  wellSealBottom : Option ℚ
  wellSealMaterial : Option String
  deriving DecidableEq

/-- Accumulator state of the whole row loop. -/
structure ParseState where
  meta : MetaAcc
  layers : List Layer
  samples : List Sample
  maxDepth : ℚ
  deriving DecidableEq

/-- Metadata accumulators initialised from the parser options. -/
def initMeta (cfg : ParseConfig) : MetaAcc where
  metaBoringId := cfg.boringId
  metaProject := cfg.project
  metaClient := none
  metaDate := cfg.date
  metaTime := none
  metaWeather := none
  metaElevation := none
  metaCoord1 := none
  metaCoord2 := none
  metaCoordSystem := none
  consultantCompany := none
  consultantContact := none
  consultantPhone := none
  drillerCompany := none
  drillerName := none
  drillerLicense := none
  groundwaterDepth := none
  groundwaterNote := none
  wellType := none
  wellCasingDiameter := none
  wellCasingMaterial := none
  wellScreenTop := none
  wellScreenBottom := none
  wellScreenSlotSize := none
  wellFilterPack := none
  wellSealTop := none
  wellSealBottom := none
  wellSealMaterial := none

/-- Per-row metadata updates (boring, consultant, driller, groundwater and
well accumulators; each keeps its previous value on an empty cell). -/
def metaStep (header row : List String) (m : MetaAcc) : MetaAcc :=
  let m := match strCell header row "boring_id" with
    | some v => { m with metaBoringId := v } | none => m
  let m := match strCell header row "project" with
    | some v => { m with metaProject := v } | none => m
  let m := match strCell header row "client" with
    | some v => { m with metaClient := some v } | none => m
  let m := match strCell header row "date" with
    | some v => { m with metaDate := v } | none => m
  let m := match strCell header row "time" with
    | some v => { m with metaTime := some v } | none => m
  let m := match strCell header row "weather" with
    | some v => { m with metaWeather := some v } | none => m
  let m := match numCell header row "elevation" with
    | some v => { m with metaElevation := some v } | none => m
  let m := match numCell header row "coord_1" with
    | some v => { m with metaCoord1 := some v } | none => m
  let m := match numCell header row "coord_2" with
    | some v => { m with metaCoord2 := some v } | none => m
  let m := match strCell header row "coord_system" with
    | some v => { m with metaCoordSystem := some v } | none => m
  let m := match strCell header row "consultant_company" with
    | some v => { m with consultantCompany := some v } | none => m
  let m := match strCell header row "consultant_contact" with
    | some v => { m with consultantContact := some v } | none => m
  let m := match strCell header row "consultant_phone" with
    | some v => { m with consultantPhone := some v } | none => m
  let m := match strCell header row "driller" with
    | some v => { m with drillerName := some v } | none => m
  let m := match strCell header row "driller_company" with
    | some v => { m with drillerCompany := some v } | none => m
  let m := match strCell header row "driller_name" with
    | some v => { m with drillerName := some v } | none => m
  let m := match strCell header row "driller_license" with
    | some v => { m with drillerLicense := some v } | none => m
  let m := match numCell header row "groundwater_depth" with
    | some v => { m with groundwaterDepth := some v } | none => m
  let m := match strCell header row "groundwater_note" with
    | some v => { m with groundwaterNote := some v } | none => m
  let m := match strCell header row "well_type" with
    | some v => { m with wellType := some v } | none => m
  let m := match numCell header row "well_casing_diameter" with
    | some v => { m with wellCasingDiameter := some v } | none => m
  let m := match strCell header row "well_casing_material" with
    | some v => { m with wellCasingMaterial := some v } | none => m
  let m := match numCell header row "well_screen_top" with
    | some v => { m with wellScreenTop := some v } | none => m
  let m := match numCell header row "well_screen_bottom" with
    | some v => { m with wellScreenBottom := some v } | none => m
  let m := match numCell header row "well_screen_slot_size" with
    | some v => { m with wellScreenSlotSize := some v } | none => m
  let m := match strCell header row "well_filter_pack" with
    | some v => { m with wellFilterPack := some v } | none => m
  let m := match numCell header row "well_seal_top" with
    | some v => { m with wellSealTop := some v } | none => m
  let m := match numCell header row "well_seal_bottom" with
    | some v => { m with wellSealBottom := some v } | none => m
  match strCell header row "well_seal_material" with
  | some v => { m with wellSealMaterial := some v } | none => m

/-- Per-row layer extraction: a row with both depths and a non-empty
classification code appends a layer unless a layer with the same
`(depthTop, depthBottom)` was already collected (first occurrence wins);
`maxDepth` advances only when a layer is appended. -/
def layerStep (header row : List String) (layers : List Layer) (maxDepth : ℚ) :
    List Layer × ℚ :=
  let depthTop := getNumericCell header row "depth_top"
  let depthBottom := getNumericCell header row "depth_bottom"
  let uscs := getCell header row "uscs"
  let description := getCell header row "description"
  match depthTop, depthBottom with
  | some dt, some db =>
      if uscs ≠ "" then
        if (layers.find? (fun l => l.depthTop == dt && l.depthBottom == db)).isSome
        then (layers, maxDepth)
        else
          let moisture := getCell header row "moisture"
          let odor := getCell header row "odor"
          let layer : Layer :=
            { depthTop := dt
              depthBottom := db
              uscs := some (jsToUpper uscs)
              description := if description = "" then uscs ++ " soil" else description
              moisture := if moisture ≠ "" then some (jsToLower moisture) else none
              odor := if odor ≠ "" then some (jsToLower odor) else none
              pid := getNumericCell header row "pid" }
          (layers ++ [layer], max maxDepth db)
      else (layers, maxDepth)
  | _, _ => (layers, maxDepth)

/-- Per-row sample extraction: a row with a sample depth, type and id
builds a sample (with blows only when all three blow cells parse), appends
it unless a sample with the same `(depth, id)` was already collected, and
advances `maxDepth` in either case. -/
def sampleStep (header row : List String) (samples : List Sample) (maxDepth : ℚ) :
    List Sample × ℚ :=
  let sampleDepth := getNumericCell header row "sample_depth"
  let sampleType := getCell header row "sample_type"
  let sampleId := getCell header row "sample_id"
  match sampleDepth with
  | some sd =>
      if sampleType ≠ "" ∧ sampleId ≠ "" then
        let blow1 := getNumericCell header row "blow1"
        let blow2 := getNumericCell header row "blow2"
        let blow3 := getNumericCell header row "blow3"
        let sample : Sample :=
          { depth := some sd
            depthTop := none
            depthBottom := none
            type := jsToUpper sampleType
            id := sampleId
            blows :=
              match blow1, blow2, blow3 with
              | some b1, some b2, some b3 => some [b1, b2, b3]
              | _, _, _ => none
            recovery := getNumericCell header row "recovery" }
        let samples' :=
          if (samples.find? (fun s => s.depth == some sd && s.id == sampleId)).isSome
          then samples else samples ++ [sample]
        (samples', max maxDepth sd)
      else (samples, maxDepth)
  | none => (samples, maxDepth)

/-- One iteration of `for (const row of dataRows)`. -/
def processRow (header : List String) (st : ParseState) (row : List String) :
    ParseState :=
  let meta := metaStep header row st.meta
  let lp := layerStep header row st.layers st.maxDepth
  let sp := sampleStep header row st.samples lp.2
  ⟨meta, lp.1, sp.1, sp.2⟩

/-- Assembly of the result record from the final accumulator state
(sorting layers and samples by depth; samples produced by this parser
always carry a point depth, compared through a zero default). -/
def buildRecord (st : ParseState) : BoringData :=
  let m := st.meta
  let layers := stableSort (fun a b => a.depthTop ≤ b.depthTop) st.layers
  let samples := stableSort
    (fun a b => a.depth.getD 0 ≤ b.depth.getD 0) st.samples
  { boring :=
      { id := m.metaBoringId
        project := some m.metaProject
        client := m.metaClient
        date := some m.metaDate
        time := m.metaTime
        dateStart := none
        dateComplete := none
        weather := m.metaWeather
        elevation := m.metaElevation
        location :=
          match m.metaCoord1, m.metaCoord2 with
          | some c1, some c2 =>
              some ⟨[c1, c2],
                if truthy m.metaCoordSystem then jsStr m.metaCoordSystem
                else "Unknown"⟩
          | _, _ => none
        consultant :=
          if truthy m.consultantCompany || truthy m.consultantContact
              || truthy m.consultantPhone then
            some ⟨m.consultantCompany, m.consultantContact, m.consultantPhone⟩
          else none
        driller :=
          if truthy m.drillerCompany || truthy m.drillerLicense then
            some (.obj m.drillerCompany m.drillerName m.drillerLicense)
          else if truthy m.drillerName then some (.str (jsStr m.drillerName))
          else none
        equipment := none
        drillingMethod := none
        loggedBy := none
        totalDepth := some (if st.maxDepth = 0 then 30 else st.maxDepth) }
    layers := layers
    samples := some samples
    groundwater :=
      match m.groundwaterDepth with
      | some gd =>
          some ⟨some gd, if truthy m.groundwaterNote then m.groundwaterNote
            else none⟩
      | none => none
    well :=
      if truthy m.wellType || m.wellCasingDiameter.isSome
          || m.wellScreenTop.isSome then
        some
          { type := m.wellType
            casingDiameter := m.wellCasingDiameter
            casingMaterial := m.wellCasingMaterial
            screenTop := m.wellScreenTop
            screenBottom := m.wellScreenBottom
            screenSlotSize := m.wellScreenSlotSize
            filterPack := m.wellFilterPack
            sealTop := m.wellSealTop
            sealBottom := m.wellSealBottom
            sealMaterial := m.wellSealMaterial }
      else none }

/-- Full `parseBoringLogCSV`: throws when the CSV has fewer than a header
row plus one data row, otherwise folds the row loop over the non-blank
data rows and assembles the record. -/
def parseBoringLogCSV (content : String) (cfg : ParseConfig) :
    Except String BoringData :=
  match parseCSVRows content cfg.delimiter with
  | [] => .error "CSV must have a header row and at least one data row"
  | [_] => .error "CSV must have a header row and at least one data row"
  | headerRow :: dataRaw =>
      let header := headerRow.map normalizeColumnName
      let dataRows := dataRaw.filter (fun row => row.any (fun cell => jsTrim cell != ""))
      .ok (buildRecord (dataRows.foldl (processRow header) ⟨initMeta cfg, [], [], 0⟩))

/-! ## Definitions supporting the claim statements -/

/-- Depth-to-pixel mapping of the main body:
`y = headerHeight + depth × depthScale` (the renderers receive
`headerHeight` as their `startY`). -/
def depthToY (cfg : Config) (dep : ℚ) : ℚ :=
  cfg.headerHeight + dep * cfg.depthScale

/-- Indicator for counting conditionally emitted elements. -/
def boolNat (b : Bool) : ℕ := if b then 1 else 0

/-- Number of elements emitted by `renderHeader`, as a closed-form
function of which optional fields are populated: each guarded field
contributes exactly its own element, while the title, project,
total-depth, DRILLER-label and date elements are unconditional. -/
def headerCount (d : BoringData) : ℕ :=
  let b := d.boring
  1 + (2 + boolNat (truthy b.client) + boolNat b.location.isSome
        + boolNat b.elevation.isSome + 1 + boolNat (gwShown d))
    + ((match b.consultant with
        | some con => 1 + boolNat (truthy con.company)
            + boolNat (truthy con.contact) + boolNat (truthy con.phone)
        | none => 0)
       + boolNat (truthy b.drillingMethod) + boolNat (truthy b.equipment)
       + boolNat (truthy b.loggedBy))
    + (1 + (match b.driller with
            | some (.obj company name license) =>
                boolNat (truthy company) + boolNat (truthy name)
                  + boolNat (truthy license)
            | some (.str s) => boolNat (s != "")
            | none => 0)
       + (if truthy b.dateStart && truthy b.dateComplete then 2 else 1)
       + boolNat (truthy b.weather))

/-- Minimal boring metadata shared by the concrete test records. -/
def exBoring : Boring :=
  { id := "B-1", project := some "P", client := none, date := some "2025-01-01",
    time := none, dateStart := none, dateComplete := none, weather := none,
    elevation := none, location := none, consultant := none, driller := none,
    equipment := none, drillingMethod := none, loggedBy := none,
    totalDepth := some 30 }

/-- Record with one layer carrying a petroleum odor and a pid reading
(both conditional columns active). -/
def c1Rec : BoringData :=
  { boring := exBoring
    layers := [{ depthTop := 0, depthBottom := 3.5, uscs := some "SM",
                 description := "Brown silty sand", moisture := some "moist",
                 odor := some "petroleum", pid := some 5 }]
    samples := none, groundwater := none, well := none }

/-- Record whose `boring.project` is absent. -/
def c5Rec : BoringData :=
  { boring := { exBoring with project := none }
    layers := [], samples := none, groundwater := none, well := none }

/-- Record used by the C5 witness (one well-formed layer). -/
def c5WitnessRec : BoringData :=
  { boring := exBoring
    layers := [{ depthTop := 0, depthBottom := 2, uscs := some "CL",
                 description := "Gray lean clay", moisture := none,
                 odor := none, pid := none }]
    samples := none, groundwater := none, well := none }

/-- Configuration with a zero depth scale (accepted by the constructor's
option spread). -/
def c6Config : Config := { defaultConfig with depthScale := 0 }

/-- Record with a layer whose classification code is absent. -/
def c9Rec : BoringData :=
  { boring := exBoring
    layers := [{ depthTop := 0, depthBottom := 3, uscs := none,
                 description := "mystery soil", moisture := none,
                 odor := none, pid := none }]
    samples := none, groundwater := none, well := none }

/-- Record and configuration exercising the depth scale bounds. -/
def c6Rec : BoringData :=
  { boring := exBoring
    layers := [], samples := none, groundwater := none, well := none }

/-- Record with zero layers (and the default configuration's legend
enabled). -/
def c10Rec : BoringData :=
  { boring := exBoring
    layers := [], samples := none, groundwater := none, well := none }

/-- Sample with the spec's example blow counts `[4, 5, 6]`. -/
def c3Sample : Sample :=
  { depth := some 2, depthTop := none, depthBottom := none, type := "SPT",
    id := "S-1", blows := some [4, 5, 6], recovery := some 18 }

/-- Parser options used by the concrete parser witnesses. -/
def wParseCfg : ParseConfig :=
  { delimiter := ',', boringId := "B-1", project := "Imported Project",
    date := "2025-01-15", driller := "Unknown" }

/-- CSV input with two rows sharing `(depthTop, depthBottom)` but with
different descriptions. -/
def wCsv : String :=
  "depth_top,depth_bottom,uscs,description\n0,1,SM,A\n0,1,CL,B"

/-- The record `parseBoringLogCSV` produces for `wCsv`: exactly one layer,
with the first row's description. -/
def wCsvRec : BoringData :=
  { boring :=
      { id := "B-1", project := some "Imported Project", client := none,
        date := some "2025-01-15", time := none, dateStart := none,
        dateComplete := none, weather := none, elevation := none,
        location := none, consultant := none, driller := none,
        equipment := none, drillingMethod := none, loggedBy := none,
        totalDepth := some 1 }
    layers := [{ depthTop := 0, depthBottom := 1, uscs := some "SM",
                 description := "A", moisture := none, odor := none,
                 pid := none }]
    samples := some []
    groundwater := none
    well := none }

/-! ## Claim theorems -/

/-- C4: rendering is a pure, deterministic function of the record and the
configuration: the scene written into the container does not depend on the
container's prior content (the render clears it first), so calling render
twice with the record and configuration unchanged produces identical scene
output in the container. -/
theorem spec_c4_render_deterministic (c₁ c₂ : List Elem) (d : BoringData)
    (cfg : Config) : render c₁ d cfg = render c₂ d cfg := rfl

/-- C2: pattern lookup is total on strings and follows the cascade: the
whole upper-cased code when it is in the table, else the first component
before the hyphen when that is in the table, else the default cross-hatch
pattern; the result is always the identifier of a defined pattern. -/
theorem spec_c2_pattern_lookup (s : String) :
    (knownPatterns.contains (jsToUpper s) = true →
      getPatternIdStr s = "pattern-" ++ jsToUpper s) ∧
    (knownPatterns.contains (jsToUpper s) = false →
      knownPatterns.contains ((splitChar '-' (jsToUpper s)).headD "") = true →
      getPatternIdStr s = "pattern-" ++ (splitChar '-' (jsToUpper s)).headD "") ∧
    (knownPatterns.contains (jsToUpper s) = false →
      knownPatterns.contains ((splitChar '-' (jsToUpper s)).headD "") = false →
      getPatternIdStr s = "pattern-DEFAULT") ∧
    getPatternIdStr s ∈ validPatternIds ∧
    getPatternId (some s) = .ok (getPatternIdStr s) := by
  refine ⟨fun h1 => ?_, fun h1 h2 => ?_, fun h1 h2 => ?_, ?_, rfl⟩
  · have h1' : jsToUpper s ∈ knownPatterns := by simpa using h1
    simp [getPatternIdStr, h1']
  · have h1' : jsToUpper s ∉ knownPatterns := by simpa using h1
    have h2' : (splitChar '-' (jsToUpper s)).headD "" ∈ knownPatterns := by
      simpa using h2
    simp only [List.headD_eq_head?_getD] at h2'
    simp [getPatternIdStr, h1', h2']
  · have h1' : jsToUpper s ∉ knownPatterns := by simpa using h1
    have h2' : (splitChar '-' (jsToUpper s)).headD "" ∉ knownPatterns := by
      simpa using h2
    simp only [List.headD_eq_head?_getD] at h2'
    simp [getPatternIdStr, h1', h2']
  · by_cases h1 : knownPatterns.contains (jsToUpper s)
    · have hm : jsToUpper s ∈ knownPatterns := by
        simpa using h1
      simp only [getPatternIdStr, h1, if_true]
      exact List.mem_map_of_mem _ hm
    · by_cases h2 : knownPatterns.contains ((splitChar '-' (jsToUpper s)).headD "")
      · have hm : (splitChar '-' (jsToUpper s)).headD "" ∈ knownPatterns := by
          simpa using h2
        simp only [getPatternIdStr, h1, h2, if_true, Bool.false_eq_true, if_false]
        exact List.mem_map_of_mem _ hm
      · simp only [getPatternIdStr, h1, h2, Bool.false_eq_true, if_false]
        decide

/-- C2 witness: the cascade at concrete codes — a dual code falls back to
its first component, an unknown code to the default pattern, and a known
code resolves directly. -/
theorem spec_c2_witness :
    getPatternIdStr "gp-gm" = "pattern-GP" ∧
    getPatternIdStr "zz-cl" = "pattern-DEFAULT" ∧
    getPatternIdStr "sm" = "pattern-SM" := by
  refine ⟨?_, ?_, ?_⟩
  · exact (spec_c2_pattern_lookup "gp-gm").2.1 (by decide) (by decide)
  · exact (spec_c2_pattern_lookup "zz-cl").2.2.1 (by decide) (by decide)
  · exact (spec_c2_pattern_lookup "sm").1 (by decide)

/-- C8: ingestion reports an error to the caller exactly when the
delimited input has fewer than two physical rows (a header row plus one
data row); any individually malformed numeric cell merely parses to the
absent value (NaN mapped to null) and cannot cause failure. -/
theorem spec_c8_parse_failure :
    (∀ content cfg, (∃ e, parseBoringLogCSV content cfg = .error e) ↔
      (parseCSVRows content cfg.delimiter).length < 2) ∧
    (∀ header row colName,
      getNumericCell header row colName =
        jsParseFloat (getCell header row colName)) := by
  constructor
  · intro content cfg
    rcases hrows : parseCSVRows content cfg.delimiter with _ | ⟨r0, rest⟩
    · simp [parseBoringLogCSV, hrows]
    · rcases rest with _ | ⟨r1, rest2⟩
      · simp [parseBoringLogCSV, hrows]
      · simp only [parseBoringLogCSV, hrows]
        simp_arith
  · intro header row colName
    rfl

/-- C8 witness: a single-row input fails, a two-row input succeeds. -/
theorem spec_c8_witness :
    (∃ e, parseBoringLogCSV "a,b" wParseCfg = .error e) ∧
    ¬ (∃ e, parseBoringLogCSV "a\n1" wParseCfg = .error e) := by
  constructor
  · exact (spec_c8_parse_failure.1 "a,b" wParseCfg).mpr (by decide)
  · intro h
    have := (spec_c8_parse_failure.1 "a\n1" wParseCfg).mp h
    revert this
    decide

/-- C1 counterexample: on a record activating both conditional columns
under the default configuration, the active column order appends odor and
PID after the recovery column (JS property assignment appends new keys),
so the odor column is not positioned between moisture and sample as the
claim states. -/
theorem spec_c1_counterexample :
    hasOdorData c1Rec = true ∧ hasPidData c1Rec = true ∧
    (activeColumns defaultConfig c1Rec).map Prod.fst =
      ["depth", "elevation", "graphic", "uscs", "description", "moisture",
       "sample", "spt", "recovery", "odor", "pid"] ∧
    ¬(((activeColumns defaultConfig c1Rec).map Prod.fst).indexOf "moisture" <
        ((activeColumns defaultConfig c1Rec).map Prod.fst).indexOf "odor" ∧
      ((activeColumns defaultConfig c1Rec).map Prod.fst).indexOf "odor" <
        ((activeColumns defaultConfig c1Rec).map Prod.fst).indexOf "sample") := by
  decide

/-- C1 (amended): with the default base columns, the active column set is
the fixed-order base columns followed by the conditional columns appended
at the end (odor before PID); the odor column is included iff some layer
has an odor value other than "none"/absent, and the PID column iff some
layer has a defined pid value.  Odor values are assumed to come from the
record model's odor enumeration. -/
theorem spec_c1_active_columns (cfg : Config) (d : BoringData)
    (hb : cfg.baseColumns = defaultBaseColumns)
    (henum : ∀ l ∈ d.layers, ∀ o, l.odor = some o →
      o ∈ (["none", "petroleum", "chlorinated", "organic", "other"] : List String)) :
    (activeColumns cfg d).map Prod.fst =
      ["depth", "elevation", "graphic", "uscs", "description", "moisture",
       "sample", "spt", "recovery"]
        ++ (if hasOdorData d then ["odor"] else [])
        ++ (if hasPidData d then ["pid"] else []) ∧
    (hasOdorData d = true ↔ ∃ l ∈ d.layers, ∃ o, l.odor = some o ∧ o ≠ "none") ∧
    (hasPidData d = true ↔ ∃ l ∈ d.layers, l.pid.isSome) := by
  refine ⟨?_, ?_, ?_⟩
  · simp only [activeColumns, hb, List.map_append, apply_ite (List.map Prod.fst)]
    rfl
  · unfold hasOdorData
    rw [List.any_eq_true]
    constructor
    · rintro ⟨l, hl, hp⟩
      rcases ho : l.odor with _ | o
      · rw [ho] at hp; simp [truthy] at hp
      · rw [ho] at hp
        simp only [truthy, Bool.and_eq_true, ne_eq] at hp
        refine ⟨l, hl, o, ho, ?_⟩
        intro hno
        subst hno
        simp at hp
    · rintro ⟨l, hl, o, ho, hne⟩
      refine ⟨l, hl, ?_⟩
      have hoin := henum l hl o ho
      rw [ho]
      simp only [truthy, Bool.and_eq_true]
      constructor
      · simp only [List.mem_cons, List.mem_singleton] at hoin
        rcases hoin with rfl | rfl | rfl | rfl | rfl | h
        · exact absurd rfl hne
        · decide
        · decide
        · decide
        · decide
        · simp at h
      · simpa using hne
  · unfold hasPidData
    rw [List.any_eq_true]

/-- C1 witness: the amended column layout at a concrete record with both
conditional columns active. -/
theorem spec_c1_witness :
    (activeColumns defaultConfig c1Rec).map Prod.fst =
      ["depth", "elevation", "graphic", "uscs", "description", "moisture",
       "sample", "spt", "recovery"] ++ ["odor"] ++ ["pid"] := by
  have h := (spec_c1_active_columns defaultConfig c1Rec rfl (by decide)).1
  rw [h, show hasOdorData c1Rec = true by decide,
    show hasPidData c1Rec = true by decide]
  rfl

/-- C6 counterexample: the constructor accepts any configuration through
its option spread; with a configuration whose depthScale is 0 the
depth-to-pixel mapping is constant, so it is not strictly monotone even
for depths inside `[0, totalDepth]`. -/
theorem spec_c6_counterexample :
    (0 : ℚ) < 1 ∧ (0 : ℚ) ≤ 0 ∧ (1 : ℚ) ≤ effTotalDepth c6Rec ∧
    ¬ depthToY c6Config 0 < depthToY c6Config 1 := by
  refine ⟨by norm_num, le_refl 0, ?_, ?_⟩
  · norm_num [effTotalDepth, c6Rec, exBoring]
  · simp [depthToY, c6Config]

/-- C6 (amended): for every configuration with a positive depthScale (the
default is 20), the mapping `y = headerHeight + depth × depthScale` is
strictly monotone on `[0, totalDepth]`; the same mapping produces the
depth-scale tick positions, the layer band top edge, and the sample depth
indicator (the renderers receive `headerHeight` as their `startY`). -/
theorem spec_c6_depth_monotone (cfg : Config) (d : BoringData) (d1 d2 : ℚ)
    (hscale : 0 < cfg.depthScale) (h0 : 0 ≤ d1) (h12 : d1 < d2)
    (htd : d2 ≤ effTotalDepth d) :
    depthToY cfg d1 < depthToY cfg d2 ∧
    (∀ (dd depthW elevW totalW td : ℚ) (se : Option ℚ), ∃ rest,
      tickElems cfg depthW elevW totalW se cfg.headerHeight td dd =
        Elem.line (jq (depthW - 10)) (jq (depthToY cfg dd)) (jq depthW)
          (jq (depthToY cfg dd)) cfg.colors.border :: rest) ∧
    (∀ (l : Layer) (graphicP uscsP descP : ℚ × ℚ)
        (mP oP pP : Option (ℚ × ℚ)) (u : String), l.uscs = some u → ∃ rest,
      renderLayer cfg graphicP uscsP descP mP oP pP cfg.headerHeight l =
        .ok (Elem.rect (jq graphicP.1) (jq (depthToY cfg l.depthTop))
          (jq graphicP.2)
          (jq (depthToY cfg l.depthBottom - depthToY cfg l.depthTop))
          ("url(#" ++ getPatternIdStr u ++ ")") cfg.colors.border :: rest)) ∧
    (∀ (s : Sample) (sampleP sptP recoveryP : ℚ × ℚ) (depthW elevW dd : ℚ),
      s.depth = some dd → s.depthTop = none →
      Elem.line (jq (depthW + elevW)) (jq (depthToY cfg dd)) (jq sampleP.1)
          (jq (depthToY cfg dd)) "#999"
        ∈ renderSampleElems cfg sampleP sptP recoveryP depthW elevW
            cfg.headerHeight s) := by
  refine ⟨?_, ?_, ?_, ?_⟩
  · unfold depthToY
    exact add_lt_add_left (mul_lt_mul_of_pos_right h12 hscale) _
  · intro dd depthW elevW totalW td se
    exact ⟨_, rfl⟩
  · intro l graphicP uscsP descP mP oP pP u hu
    rcases l with ⟨dt, db, luscs, ldesc, lmo, lod, lpid⟩
    cases hu
    exact ⟨_, rfl⟩
  · intro s sampleP sptP recoveryP depthW elevW dd hdep htop
    rcases s with ⟨sdep, stop, sbot, sty, sid, sbl, srec⟩
    cases hdep
    cases htop
    exact List.mem_cons_of_mem _
      (List.mem_append_right _ (List.mem_singleton_self _))

/-- C6 witness: the monotone mapping at the default configuration. -/
theorem spec_c6_witness :
    depthToY defaultConfig 0 < depthToY defaultConfig 1 := by
  exact (spec_c6_depth_monotone defaultConfig c6Rec 0 1
    (by norm_num [defaultConfig]) (le_refl 0) (by norm_num)
    (by norm_num [effTotalDepth, c6Rec, exBoring])).1

/-- C3: a sample whose blows field is exactly `[b1, b2, b3]` gets an SPT
annotation displaying `N = b2 + b3` (the first value excluded) plus the
three raw blow counts joined by dashes, and these labels are part of the
sample's rendered elements; a sample with no blows field or with a blows
sequence of length other than three gets no N annotation. -/
theorem spec_c3_spt_n_value :
    (∀ (tc : String) (sptX sptW : ℚ) (y : JSNum) (s : Sample) (b1 b2 b3 : ℚ),
      s.blows = some [b1, b2, b3] →
      sptLabels tc sptX sptW y s =
        [Elem.text (jq (sptX + sptW / 2)) (jsub y (jq 2))
            ("N=" ++ numToStr (b2 + b3)) "9px" tc (some "bold") (some "middle"),
         Elem.text (jq (sptX + sptW / 2)) (jadd y (jq 9))
            ("(" ++ (numToStr b1 ++ "-" ++ (numToStr b2 ++ "-" ++ numToStr b3))
              ++ ")") "7px" "#666" none (some "middle")]) ∧
    (∀ (tc : String) (sptX sptW : ℚ) (y : JSNum) (s : Sample),
      s.blows = none → sptLabels tc sptX sptW y s = []) ∧
    (∀ (tc : String) (sptX sptW : ℚ) (y : JSNum) (s : Sample) (bs : List ℚ),
      s.blows = some bs → bs.length ≠ 3 → sptLabels tc sptX sptW y s = []) ∧
    (∀ (cfg : Config) (sampleP sptP recoveryP : ℚ × ℚ)
        (depthW elevW startY : ℚ) (s : Sample) (e : Elem),
      e ∈ sptLabels cfg.colors.text sptP.1 sptP.2
            (jadd (jq startY) (jmul (sampleCenterDepth s) (jq cfg.depthScale))) s →
      e ∈ renderSampleElems cfg sampleP sptP recoveryP depthW elevW startY s) := by
  refine ⟨?_, ?_, ?_, ?_⟩
  · intro tc sptX sptW y s b1 b2 b3 hb
    simp [sptLabels, hb, jsJoin]
  · intro tc sptX sptW y s hb
    simp [sptLabels, hb]
  · intro tc sptX sptW y s bs hb hlen
    simp [sptLabels, hb, hlen]
  · intro cfg sampleP sptP recoveryP depthW elevW startY s e he
    simp only [renderSampleElems, List.mem_cons, List.mem_append]
    tauto

/-- C3 witness: blows `[4, 5, 6]` display `N=11` and `(4-5-6)`. -/
theorem spec_c3_witness :
    (∃ x y, Elem.text x y "N=11" "9px" "#333" (some "bold") (some "middle")
        ∈ sptLabels "#333" 490 70 (jq 230) c3Sample) ∧
    (∃ x y, Elem.text x y "(4-5-6)" "7px" "#666" none (some "middle")
        ∈ sptLabels "#333" 490 70 (jq 230) c3Sample) := by
  have h := spec_c3_spt_n_value.1 "#333" 490 70 (jq 230) c3Sample 4 5 6 rfl
  rw [h]
  constructor
  · refine ⟨jq (490 + 70 / 2), jsub (jq 230) (jq 2), ?_⟩
    rw [show ("N=11" : String) = "N=" ++ numToStr ((5 : ℚ) + 6) by
      norm_num [numToStr]
      decide]
    exact List.mem_cons_self _ _
  · refine ⟨jq (490 + 70 / 2), jadd (jq 230) (jq 9), ?_⟩
    rw [show ("(4-5-6)" : String) = "(" ++ (numToStr (4:ℚ) ++ "-"
        ++ (numToStr (5:ℚ) ++ "-" ++ numToStr (6:ℚ))) ++ ")" by
      norm_num [numToStr]
      decide]
    exact List.mem_cons_of_mem _ (List.mem_cons_self _ _)

/-! ## Helper lemmas: success and failure of the render pipeline -/

theorem except_bind_ok {α β : Type} (a : α) (f : α → Except JsError β) :
    (Except.ok a >>= f) = f a := rfl

theorem except_bind_isOk {α β : Type} {x : Except JsError α}
    {f : α → Except JsError β} (hx : ∃ v, x = .ok v)
    (hf : ∀ v, ∃ w, f v = .ok w) : ∃ w, (x >>= f) = .ok w := by
  rcases hx with ⟨v, hv⟩
  subst hv
  rcases hf v with ⟨w, hw⟩
  exact ⟨w, hw⟩

theorem except_bind_error {α β : Type} {x : Except JsError α} {e : JsError}
    (f : α → Except JsError β) (hx : x = .error e) :
    (x >>= f) = .error e := by
  rw [hx]; rfl

theorem renderLayer_ok (cfg : Config) (g u de : ℚ × ℚ)
    (mo od pd : Option (ℚ × ℚ)) (a : ℚ) (l : Layer) (s : String)
    (h : l.uscs = some s) :
    ∃ es, renderLayer cfg g u de mo od pd a l = .ok es := by
  rcases l with ⟨dt, db, luscs, ldesc, lmo, lod, lpid⟩
  cases h
  exact ⟨_, rfl⟩

theorem renderLayer_err (cfg : Config) (g u de : ℚ × ℚ)
    (mo od pd : Option (ℚ × ℚ)) (a : ℚ) (l : Layer) (h : l.uscs = none) :
    renderLayer cfg g u de mo od pd a l = .error .typeError := by
  rcases l with ⟨dt, db, luscs, ldesc, lmo, lod, lpid⟩
  cases h
  rfl

theorem renderLayersLoop_ok (cfg : Config) (g u de : ℚ × ℚ)
    (mo od pd : Option (ℚ × ℚ)) (a : ℚ) :
    ∀ ls : List Layer, (∀ l ∈ ls, l.uscs.isSome = true) →
    ∃ es, renderLayersLoop cfg g u de mo od pd a ls = .ok es := by
  intro ls
  induction ls with
  | nil => exact fun _ => ⟨[], rfl⟩
  | cons l ls ih =>
      intro h
      obtain ⟨s, hs⟩ := Option.isSome_iff_exists.mp
        (h l (List.mem_cons_self _ _))
      obtain ⟨e1, he1⟩ := renderLayer_ok cfg g u de mo od pd a l s hs
      obtain ⟨es, hes⟩ := ih (fun x hx => h x (List.mem_cons_of_mem _ hx))
      refine ⟨e1 ++ es, ?_⟩
      show (renderLayer cfg g u de mo od pd a l >>= fun e =>
        renderLayersLoop cfg g u de mo od pd a ls >>= fun rest =>
          Except.ok (e ++ rest)) = _
      rw [he1, except_bind_ok, hes, except_bind_ok]

theorem renderLayersLoop_err (cfg : Config) (g u de : ℚ × ℚ)
    (mo od pd : Option (ℚ × ℚ)) (a : ℚ) :
    ∀ ls : List Layer, (∃ l ∈ ls, l.uscs = none) →
    renderLayersLoop cfg g u de mo od pd a ls = .error .typeError := by
  intro ls
  induction ls with
  | nil => rintro ⟨l, hl, -⟩; cases hl
  | cons l ls ih =>
      rintro ⟨l', hl', hnone⟩
      show (renderLayer cfg g u de mo od pd a l >>= fun e =>
        renderLayersLoop cfg g u de mo od pd a ls >>= fun rest =>
          Except.ok (e ++ rest)) = _
      rcases List.mem_cons.mp hl' with rfl | hmem
      · rw [renderLayer_err cfg g u de mo od pd a l' hnone]; rfl
      · rcases hu : l.uscs with _ | s
        · rw [renderLayer_err cfg g u de mo od pd a l hu]; rfl
        · obtain ⟨e1, he1⟩ := renderLayer_ok cfg g u de mo od pd a l s hu
          rw [he1, except_bind_ok, ih ⟨l', hmem, hnone⟩]
          rfl

theorem collectCodes_ok :
    ∀ (ls : List Layer) (acc : List String),
      (∀ l ∈ ls, l.uscs.isSome = true) →
      ∃ cs, collectCodes acc ls = .ok cs := by
  intro ls
  induction ls with
  | nil => exact fun acc _ => ⟨acc, rfl⟩
  | cons l ls ih =>
      intro acc h
      obtain ⟨s, hs⟩ := Option.isSome_iff_exists.mp
        (h l (List.mem_cons_self _ _))
      rcases l with ⟨dt, db, luscs, ldesc, lmo, lod, lpid⟩
      cases hs
      exact ih _ (fun x hx => h x (List.mem_cons_of_mem _ hx))

theorem collectCodes_err :
    ∀ (ls : List Layer) (acc : List String),
      (∃ l ∈ ls, l.uscs = none) →
      collectCodes acc ls = .error .typeError := by
  intro ls
  induction ls with
  | nil => rintro acc ⟨l, hl, -⟩; cases hl
  | cons l ls ih =>
      rintro acc ⟨l', hl', hnone⟩
      rcases List.mem_cons.mp hl' with rfl | hmem
      · rcases l' with ⟨dt, db, luscs, ldesc, lmo, lod, lpid⟩
        cases hnone
        rfl
      · rcases hu : l.uscs with _ | s
        · rcases l with ⟨dt, db, luscs, ldesc, lmo, lod, lpid⟩
          cases hu
          rfl
        · rcases l with ⟨dt, db, luscs, ldesc, lmo, lod, lpid⟩
          cases hu
          exact ih _ ⟨l', hmem, hnone⟩

theorem renderDepthScale_ok_default (d : BoringData) (a b c : ℚ) :
    ∃ es, renderDepthScale defaultConfig (activeColumns defaultConfig d) d a b c
      = .ok es :=
  ⟨_, rfl⟩

theorem except_bind_okThen_err {α β : Type} {x : Except JsError α}
    {f : α → Except JsError β} {e : JsError} (hx : ∃ a, x = .ok a)
    (hf : ∀ a, f a = .error e) : (x >>= f) = .error e := by
  obtain ⟨a, ha⟩ := hx
  rw [ha, except_bind_ok]
  exact hf a

theorem renderSoilLayers_ok_default (d : BoringData) (a b : ℚ)
    (h : ∀ l ∈ d.layers, l.uscs.isSome = true) :
    ∃ es, renderSoilLayers defaultConfig (activeColumns defaultConfig d) d a b
      = .ok es := by
  unfold renderSoilLayers
  refine except_bind_isOk ⟨_, rfl⟩ (fun graphicP => ?_)
  refine except_bind_isOk ⟨_, rfl⟩ (fun uscsP => ?_)
  refine except_bind_isOk ⟨_, rfl⟩ (fun descP => ?_)
  exact except_bind_isOk
    (renderLayersLoop_ok defaultConfig graphicP uscsP descP _ _ _ a d.layers h)
    (fun es => ⟨_, rfl⟩)

theorem renderSoilLayers_err_default (d : BoringData) (a b : ℚ)
    (h : ∃ l ∈ d.layers, l.uscs = none) :
    renderSoilLayers defaultConfig (activeColumns defaultConfig d) d a b
      = .error .typeError := by
  unfold renderSoilLayers
  refine except_bind_okThen_err ⟨_, rfl⟩ (fun graphicP => ?_)
  refine except_bind_okThen_err ⟨_, rfl⟩ (fun uscsP => ?_)
  refine except_bind_okThen_err ⟨_, rfl⟩ (fun descP => ?_)
  exact except_bind_error _
    (renderLayersLoop_err defaultConfig graphicP uscsP descP _ _ _ a d.layers h)

theorem renderSamples_ok_default (d : BoringData) (a : ℚ) :
    ∃ es, renderSamples defaultConfig (activeColumns defaultConfig d) d a
      = .ok es := by
  unfold renderSamples
  rcases d.samples with _ | ss
  · exact ⟨[], rfl⟩
  · exact ⟨_, rfl⟩

theorem renderGroundwater_ok_default (d : BoringData) (a : ℚ) :
    ∃ es, renderGroundwater defaultConfig (activeColumns defaultConfig d) d a
      = .ok es := by
  unfold renderGroundwater
  rcases d.groundwater with _ | g
  · exact ⟨[], rfl⟩
  · rcases g with ⟨gd, gn⟩
    rcases gd with _ | gdep
    · exact ⟨[], rfl⟩
    · exact ⟨_, rfl⟩

theorem renderLegend_ok_default (d : BoringData) (a b : ℚ)
    (h : ∀ l ∈ d.layers, l.uscs.isSome = true) :
    ∃ es, renderLegend defaultConfig d a b = .ok es := by
  obtain ⟨cs, hcs⟩ := collectCodes_ok d.layers [] h
  unfold renderLegend
  refine except_bind_isOk ⟨cs, hcs⟩ (fun codes => ⟨_, rfl⟩)

theorem renderLegend_err_default (d : BoringData) (a b : ℚ)
    (h : ∃ l ∈ d.layers, l.uscs = none) :
    renderLegend defaultConfig d a b = .error .typeError := by
  unfold renderLegend
  exact except_bind_error _ (collectCodes_err d.layers [] h)

theorem render_ok_default (c : List Elem) (d : BoringData)
    (h : ∀ l ∈ d.layers, l.uscs.isSome = true) :
    ∃ s, render c d defaultConfig = .ok s := by
  unfold render
  refine except_bind_isOk (renderDepthScale_ok_default d _ _ _)
    (fun scaleElems => ?_)
  refine except_bind_isOk (renderSoilLayers_ok_default d _ _ h)
    (fun layerElems => ?_)
  refine except_bind_isOk (renderSamples_ok_default d _)
    (fun sampleElems => ?_)
  refine except_bind_isOk (renderGroundwater_ok_default d _)
    (fun gwElems => ?_)
  refine except_bind_isOk ?_ (fun legendElems => ⟨_, rfl⟩)
  show ∃ es, (if defaultConfig.showLegend then
    renderLegend defaultConfig d _ _ else .ok []) = .ok es
  exact renderLegend_ok_default d _ _ h

theorem render_err_default (c : List Elem) (d : BoringData)
    (h : ∃ l ∈ d.layers, l.uscs = none) :
    render c d defaultConfig = .error .typeError := by
  unfold render
  refine except_bind_okThen_err (renderDepthScale_ok_default d _ _ _)
    (fun scaleElems => ?_)
  exact except_bind_error _ (renderSoilLayers_err_default d _ _ h)

theorem except_bind_mem {x : Except JsError (List Elem)} {e : Elem}
    {f : List Elem → Except JsError (List Elem)} (hx : ∃ a, x = .ok a)
    (hf : ∀ a, ∃ s, f a = .ok s ∧ e ∈ s) :
    ∃ s, (x >>= f) = .ok s ∧ e ∈ s := by
  obtain ⟨a, ha⟩ := hx
  obtain ⟨s, hs, hm⟩ := hf a
  exact ⟨s, by rw [ha, except_bind_ok]; exact hs, hm⟩

theorem except_bind_mem_at {x : Except JsError (List Elem)} {e : Elem}
    {f : List Elem → Except JsError (List Elem)} (a : List Elem)
    (hx : x = .ok a) (hf : ∃ s, f a = .ok s ∧ e ∈ s) :
    ∃ s, (x >>= f) = .ok s ∧ e ∈ s := by
  obtain ⟨s, hs, hm⟩ := hf
  exact ⟨s, by rw [hx, except_bind_ok]; exact hs, hm⟩

theorem render_mem_legend (c : List Elem) (d : BoringData) (e : Elem)
    (h : ∀ l ∈ d.layers, l.uscs.isSome = true)
    (hin : ∀ legendElems,
      renderLegend defaultConfig d
          (defaultConfig.headerHeight + effTotalDepth d * defaultConfig.depthScale
            + defaultConfig.footerHeight)
          (sumWidths (activeColumns defaultConfig d)
            + (if hasWell d then defaultConfig.wellPanelWidth + 10 else 0))
        = .ok legendElems → e ∈ legendElems) :
    ∃ s, render c d defaultConfig = .ok s ∧ e ∈ s := by
  obtain ⟨les, hles⟩ := renderLegend_ok_default d
    (defaultConfig.headerHeight + effTotalDepth d * defaultConfig.depthScale
      + defaultConfig.footerHeight)
    (sumWidths (activeColumns defaultConfig d)
      + (if hasWell d then defaultConfig.wellPanelWidth + 10 else 0)) h
  unfold render
  refine except_bind_mem (renderDepthScale_ok_default d _ _ _)
    (fun scaleElems => ?_)
  refine except_bind_mem (renderSoilLayers_ok_default d _ _ h)
    (fun layerElems => ?_)
  refine except_bind_mem (renderSamples_ok_default d _)
    (fun sampleElems => ?_)
  refine except_bind_mem (renderGroundwater_ok_default d _)
    (fun gwElems => ?_)
  refine except_bind_mem_at les hles ⟨_, rfl, ?_⟩
  exact List.mem_append.mpr (Or.inl (List.mem_append.mpr (Or.inr (hin les hles))))

theorem stableSort_nil {α : Type} (le : α → α → Bool) : stableSort le [] = [] := rfl

theorem jmul_nan_left (x : JSNum) : jmul .nan x = .nan := by cases x <;> rfl

theorem jadd_nan_left (x : JSNum) : jadd .nan x = .nan := by cases x <;> rfl

theorem jadd_nan_right (x : JSNum) : jadd x .nan = .nan := by cases x <;> rfl

theorem jdiv_zero_zero : jdiv (jq 0) (jq 0) = .nan := by decide

theorem jceil_nan : jceil .nan = .nan := rfl

theorem renderLegend_nil (d : BoringData) (a b : ℚ) (h : d.layers = []) :
    ∃ rest, renderLegend defaultConfig d a b =
      .ok (Elem.rect (jq 0) (jq a) (jq b) JSNum.nan "#fafafa"
        defaultConfig.colors.border :: rest) := by
  unfold renderLegend
  rw [h]
  rw [show collectCodes [] ([] : List Layer) = Except.ok ([] : List String)
    from rfl, except_bind_ok]
  simp only [List.map_nil, stableSort_nil, List.length_nil, Nat.zero_min,
    Nat.cast_zero, jdiv_zero_zero, jceil_nan, jmul_nan_left, jadd_nan_left,
    jadd_nan_right]
  exact ⟨_, rfl⟩

/-- C9: the renderer requires every layer to carry a classification code:
pattern lookup on an absent code throws a TypeError (`.toUpperCase()` of
`undefined`), and a render of any record with at least one such layer
aborts with that error; the lookup-never-fails guarantee holds only for
string codes. -/
theorem spec_c9_missing_uscs_throws :
    getPatternId none = .error .typeError ∧
    ∀ (c : List Elem) (d : BoringData), (∃ l ∈ d.layers, l.uscs = none) →
      render c d defaultConfig = .error .typeError :=
  ⟨rfl, fun c d h => render_err_default c d h⟩

/-- C9 witness: a concrete record with a code-less layer aborts. -/
theorem spec_c9_witness :
    render [] c9Rec defaultConfig = .error .typeError :=
  spec_c9_missing_uscs_throws.2 [] c9Rec ⟨_, List.mem_cons_self _ _, rfl⟩

/-- C10: on any record with zero layers and the legend enabled (default
configuration), the legend column count `min(0, 4)` is 0, the row count
`ceil(0/0)` is NaN, and the render completes without throwing but emits a
legend background rectangle whose height is non-numeric. -/
theorem spec_c10_legend_nan (c : List Elem) (d : BoringData)
    (h : d.layers = []) :
    (min 0 4 : ℕ) = 0 ∧
    jceil (jdiv (jq 0) (jq 0)) = JSNum.nan ∧
    ∃ s, render c d defaultConfig = .ok s ∧
      ∃ x y w stroke, Elem.rect x y w JSNum.nan "#fafafa" stroke ∈ s := by
  refine ⟨rfl, by rw [jdiv_zero_zero, jceil_nan], ?_⟩
  have hall : ∀ l ∈ d.layers, l.uscs.isSome = true := by
    rw [h]; intro l hl; cases hl
  have hin : ∀ legendElems,
      renderLegend defaultConfig d
          (defaultConfig.headerHeight + effTotalDepth d * defaultConfig.depthScale
            + defaultConfig.footerHeight)
          (sumWidths (activeColumns defaultConfig d)
            + (if hasWell d then defaultConfig.wellPanelWidth + 10 else 0))
        = .ok legendElems →
      Elem.rect (jq 0)
        (jq (defaultConfig.headerHeight
          + effTotalDepth d * defaultConfig.depthScale + defaultConfig.footerHeight))
        (jq (sumWidths (activeColumns defaultConfig d)
          + (if hasWell d then defaultConfig.wellPanelWidth + 10 else 0)))
        JSNum.nan "#fafafa" defaultConfig.colors.border ∈ legendElems := by
    intro legendElems hle
    obtain ⟨rest, heq⟩ := renderLegend_nil d
      (defaultConfig.headerHeight + effTotalDepth d * defaultConfig.depthScale
        + defaultConfig.footerHeight)
      (sumWidths (activeColumns defaultConfig d)
        + (if hasWell d then defaultConfig.wellPanelWidth + 10 else 0)) h
    rw [hle] at heq
    injection heq with heq2
    rw [heq2]
    exact List.mem_cons_self _ _
  obtain ⟨s, hs, hm⟩ := render_mem_legend c d _ hall hin
  exact ⟨s, hs, _, _, _, _, hm⟩

/-- C10 witness: the concrete zero-layer record. -/
theorem spec_c10_witness :
    ∃ s, render [] c10Rec defaultConfig = .ok s ∧
      ∃ x y w stroke, Elem.rect x y w JSNum.nan "#fafafa" stroke ∈ s :=
  (spec_c10_legend_nan [] c10Rec rfl).2.2

/-! ## Helper lemmas: header element counting -/

theorem emitAt_len (mk : ℚ → Elem) (dy : ℚ) (p : List Elem × ℚ) :
    (emitAt mk dy p).1.length = p.1.length + 1 := by
  simp [emitAt]

theorem emitIf_len (c : Bool) (mk : ℚ → Elem) (dy : ℚ) (p : List Elem × ℚ) :
    (emitIf c mk dy p).1.length = p.1.length + boolNat c := by
  cases c <;> simp [emitIf, emitAt, boolNat]

theorem emitIfPre_len (c : Bool) (mk : ℚ → Elem) (dy : ℚ) (p : List Elem × ℚ) :
    (emitIfPre c mk dy p).1.length = p.1.length + boolNat c := by
  cases c <;> simp [emitIfPre, boolNat]

theorem bumpY_len (dy : ℚ) (p : List Elem × ℚ) :
    (bumpY dy p).1.length = p.1.length := rfl

theorem headerCol1_length (cfg : Config) (d : BoringData) :
    (headerCol1 cfg d).length =
      2 + boolNat (truthy d.boring.client) + boolNat d.boring.location.isSome
        + boolNat d.boring.elevation.isSome + 1 + boolNat (gwShown d) := by
  unfold headerCol1
  simp only [emitAt_len, emitIf_len, emitIfPre_len, List.length_nil]

theorem headerCol2_length (cfg : Config) (d : BoringData) (w : ℚ) :
    (headerCol2 cfg d w).length =
      (match d.boring.consultant with
       | some con => 1 + boolNat (truthy con.company)
           + boolNat (truthy con.contact) + boolNat (truthy con.phone)
       | none => 0)
        + boolNat (truthy d.boring.drillingMethod)
        + boolNat (truthy d.boring.equipment)
        + boolNat (truthy d.boring.loggedBy) := by
  unfold headerCol2
  rcases hcon : d.boring.consultant with _ | con <;>
    simp only [hcon, emitAt_len, emitIf_len, emitIfPre_len, bumpY_len,
      List.length_nil]

theorem headerCol3_length (cfg : Config) (d : BoringData) (w : ℚ) :
    (headerCol3 cfg d w).length =
      1 + (match d.boring.driller with
           | some (.obj company name license) =>
               boolNat (truthy company) + boolNat (truthy name)
                 + boolNat (truthy license)
           | some (.str s) => boolNat (s != "")
           | none => 0)
        + (if truthy d.boring.dateStart && truthy d.boring.dateComplete
           then 2 else 1)
        + boolNat (truthy d.boring.weather) := by
  unfold headerCol3
  rcases hdr : d.boring.driller with _ | dr
  · rcases hdc : (truthy d.boring.dateStart && truthy d.boring.dateComplete) <;>
      simp only [hdr, hdc, emitAt_len, emitIf_len, emitIfPre_len, bumpY_len,
        List.length_nil, if_true, if_false, Bool.false_eq_true]
  · rcases dr with s | ⟨company, name, license⟩ <;>
      rcases hdc : (truthy d.boring.dateStart && truthy d.boring.dateComplete) <;>
      simp only [hdr, hdc, emitAt_len, emitIf_len, emitIfPre_len, bumpY_len,
        List.length_nil, if_true, if_false, Bool.false_eq_true] <;>
      try ring

theorem renderHeaderElems_length (cfg : Config) (d : BoringData) (w : ℚ) :
    (renderHeaderElems cfg d w).length = headerCount d := by
  unfold renderHeaderElems headerCount
  simp only [List.length_cons, List.length_append, headerCol1_length,
    headerCol2_length, headerCol3_length]
  ring

/-- C5 counterexample: with `boring.project` absent, the header still
emits the project line (with content "Project: undefined") instead of
suppressing the element that depends on the missing field. -/
theorem spec_c5_counterexample :
    c5Rec.boring.project = none ∧
    (renderHeaderElems defaultConfig c5Rec 605).any
      (fun e => match e with
        | .text _ _ "Project: undefined" _ _ _ _ => true
        | _ => false) = true := by
  exact ⟨rfl, by decide⟩

/-- C5 (amended): missing optional data never aborts the render (any
record whose layers all carry a classification code renders successfully
under the default configuration), and the header emits exactly one element
per populated guarded optional field (client, location, elevation,
groundwater, consultant block, drilling method, equipment, logged-by,
driller fields, start/complete dates, weather) — absence of such a field
suppresses only its own element; however the title, project, total-depth,
DRILLER-label and date elements are emitted unconditionally, rendering a
missing project or date as the text "undefined". -/
theorem spec_c5_optional_fields (c : List Elem) (d : BoringData) (w : ℚ)
    (h : ∀ l ∈ d.layers, l.uscs.isSome = true) :
    (∃ s, render c d defaultConfig = .ok s) ∧
    (renderHeaderElems defaultConfig d w).length = headerCount d :=
  ⟨render_ok_default c d h, renderHeaderElems_length defaultConfig d w⟩

/-- C5 witness: a concrete record with one well-formed layer renders, and
its header count matches the closed form. -/
theorem spec_c5_witness :
    (∃ s, render [] c5WitnessRec defaultConfig = .ok s) ∧
    (renderHeaderElems defaultConfig c5WitnessRec 605).length
      = headerCount c5WitnessRec :=
  spec_c5_optional_fields [] c5WitnessRec 605 (by decide)

/-! ## Helper lemmas: stable sort permutation and dedup invariants -/

theorem sInsert_perm {α : Type} (le : α → α → Bool) (x : α) :
    ∀ l : List α, (sInsert le x l).Perm (x :: l) := by
  intro l
  induction l with
  | nil => exact List.Perm.refl _
  | cons y ys ih =>
      unfold sInsert
      by_cases h : le y x = true
      · simp only [h, if_true]
        exact ((ih.cons y).trans (List.Perm.swap x y ys))
      · simp only [h, if_false, Bool.false_eq_true]
        exact List.Perm.refl _

theorem stableSort_foldl_perm {α : Type} (le : α → α → Bool) :
    ∀ (l acc : List α),
      (l.foldl (fun acc x => sInsert le x acc) acc).Perm (acc ++ l) := by
  intro l
  induction l with
  | nil => intro acc; simp
  | cons x xs ih =>
      intro acc
      have h1 := ih (sInsert le x acc)
      have h2 : (sInsert le x acc ++ xs).Perm ((x :: acc) ++ xs) :=
        (sInsert_perm le x acc).append_right xs
      have h4 : (x :: (acc ++ xs)).Perm (acc ++ x :: xs) :=
        List.perm_middle.symm
      exact h1.trans (h2.trans h4)

theorem stableSort_perm {α : Type} (le : α → α → Bool) (l : List α) :
    (stableSort le l).Perm l := by
  have h := stableSort_foldl_perm le l []
  simpa [stableSort] using h

theorem layerStep_pairwise (header row : List String) (ls : List Layer)
    (maxD : ℚ)
    (hp : ls.Pairwise (fun a b =>
      ¬(a.depthTop = b.depthTop ∧ a.depthBottom = b.depthBottom))) :
    (layerStep header row ls maxD).1.Pairwise (fun a b =>
      ¬(a.depthTop = b.depthTop ∧ a.depthBottom = b.depthBottom)) := by
  unfold layerStep
  rcases h1 : getNumericCell header row "depth_top" with _ | dt
  · exact hp
  rcases h2 : getNumericCell header row "depth_bottom" with _ | db
  · exact hp
  dsimp only
  by_cases h3 : getCell header row "uscs" ≠ ""
  · rw [if_pos h3]
    by_cases h4 : (ls.find? (fun l =>
        l.depthTop == dt && l.depthBottom == db)).isSome
    · rw [if_pos h4]; exact hp
    · rw [if_neg h4]
      refine List.pairwise_append.mpr ⟨hp, List.pairwise_singleton _ _, ?_⟩
      intro a ha b hb
      rcases List.mem_singleton.mp hb with rfl
      have hnone : ls.find? (fun l =>
          l.depthTop == dt && l.depthBottom == db) = none :=
        Option.not_isSome_iff_eq_none.mp h4
      have hnot := List.find?_eq_none.mp hnone a ha
      simp only [Bool.and_eq_true, beq_iff_eq] at hnot
      rintro ⟨hEq1, hEq2⟩
      exact hnot ⟨hEq1, hEq2⟩
  · rw [if_neg h3]; exact hp

theorem sampleStep_pairwise (header row : List String) (ss : List Sample)
    (maxD : ℚ)
    (hp : ss.Pairwise (fun a b => ¬(a.depth = b.depth ∧ a.id = b.id))) :
    (sampleStep header row ss maxD).1.Pairwise (fun a b =>
      ¬(a.depth = b.depth ∧ a.id = b.id)) := by
  unfold sampleStep
  rcases h1 : getNumericCell header row "sample_depth" with _ | sd
  · exact hp
  dsimp only
  by_cases h2 : getCell header row "sample_type" ≠ "" ∧
      getCell header row "sample_id" ≠ ""
  · rw [if_pos h2]
    by_cases h4 : (ss.find? (fun s =>
        s.depth == some sd && s.id == getCell header row "sample_id")).isSome
    · rw [if_pos h4]; exact hp
    · rw [if_neg h4]
      refine List.pairwise_append.mpr ⟨hp, List.pairwise_singleton _ _, ?_⟩
      intro a ha b hb
      rcases List.mem_singleton.mp hb with rfl
      have hnone : ss.find? (fun s =>
          s.depth == some sd && s.id == getCell header row "sample_id")
          = none :=
        Option.not_isSome_iff_eq_none.mp h4
      have hnot := List.find?_eq_none.mp hnone a ha
      simp only [Bool.and_eq_true, beq_iff_eq] at hnot
      rintro ⟨hEq1, hEq2⟩
      exact hnot ⟨hEq1, hEq2⟩
  · rw [if_neg h2]; exact hp

theorem processRow_foldl_inv (header : List String) :
    ∀ (rows : List (List String)) (st : ParseState),
      st.layers.Pairwise (fun a b =>
        ¬(a.depthTop = b.depthTop ∧ a.depthBottom = b.depthBottom)) →
      st.samples.Pairwise (fun a b => ¬(a.depth = b.depth ∧ a.id = b.id)) →
      (rows.foldl (processRow header) st).layers.Pairwise (fun a b =>
        ¬(a.depthTop = b.depthTop ∧ a.depthBottom = b.depthBottom)) ∧
      (rows.foldl (processRow header) st).samples.Pairwise (fun a b =>
        ¬(a.depth = b.depth ∧ a.id = b.id)) := by
  intro rows
  induction rows with
  | nil => exact fun st h1 h2 => ⟨h1, h2⟩
  | cons r rows ih =>
      intro st h1 h2
      exact ih (processRow header st r)
        (layerStep_pairwise header r st.layers st.maxDepth h1)
        (sampleStep_pairwise header r st.samples _ h2)

theorem layerKeySymm : Symmetric (fun a b : Layer =>
    ¬(a.depthTop = b.depthTop ∧ a.depthBottom = b.depthBottom)) :=
  fun _ _ h he => h ⟨he.1.symm, he.2.symm⟩

theorem sampleKeySymm : Symmetric (fun a b : Sample =>
    ¬(a.depth = b.depth ∧ a.id = b.id)) :=
  fun _ _ h he => h ⟨he.1.symm, he.2.symm⟩

/-- C7: ingestion deduplicates with the first occurrence winning.
First, every record produced by a successful parse has pairwise-distinct
layer keys `(depthTop, depthBottom)` and pairwise-distinct sample keys
`(depth, id)`, so two rows with an identical key contribute exactly one
entry. Second and third, the per-row layer and sample steps leave the
collected lists unchanged whenever a row's key matches an
already-collected layer or sample, so a later duplicate row adds nothing
and the first row's entry (with its description) is the one kept. -/
theorem spec_c7_dedup :
    (∀ (content : String) (cfg : ParseConfig) (rec : BoringData),
        parseBoringLogCSV content cfg = .ok rec →
        rec.layers.Pairwise (fun a b =>
          ¬(a.depthTop = b.depthTop ∧ a.depthBottom = b.depthBottom)) ∧
        ∀ ss, rec.samples = some ss →
          ss.Pairwise (fun a b => ¬(a.depth = b.depth ∧ a.id = b.id))) ∧
    (∀ (header row : List String) (ls : List Layer) (maxD dt db : ℚ),
        getNumericCell header row "depth_top" = some dt →
        getNumericCell header row "depth_bottom" = some db →
        (∃ l ∈ ls, l.depthTop = dt ∧ l.depthBottom = db) →
        (layerStep header row ls maxD).1 = ls) ∧
    (∀ (header row : List String) (ss : List Sample) (maxD sd : ℚ),
        getNumericCell header row "sample_depth" = some sd →
        (∃ s ∈ ss, s.depth = some sd ∧
          s.id = getCell header row "sample_id") →
        (sampleStep header row ss maxD).1 = ss) := by
  refine ⟨?_, ?_, ?_⟩
  · intro content cfg rec h
    unfold parseBoringLogCSV at h
    rcases hrows : parseCSVRows content cfg.delimiter with _ | ⟨r0, rest⟩
    · rw [hrows] at h; exact absurd h (by simp)
    rcases rest with _ | ⟨r1, rest'⟩
    · rw [hrows] at h; exact absurd h (by simp)
    rw [hrows] at h
    simp only [Except.ok.injEq] at h
    subst h
    have hinv := processRow_foldl_inv (r0.map normalizeColumnName)
      (((r1 :: rest').filter (fun row => row.any (fun cell => jsTrim cell != ""))))
      ⟨initMeta cfg, [], [], 0⟩ (List.Pairwise.nil) (List.Pairwise.nil)
    constructor
    · exact ((stableSort_perm _ _).pairwise_iff (fun h => layerKeySymm h)).mpr hinv.1
    · intro ss hss
      simp only [buildRecord, Option.some.injEq] at hss
      subst hss
      exact ((stableSort_perm _ _).pairwise_iff (fun h => sampleKeySymm h)).mpr hinv.2
  · intro header row ls maxD dt db h1 h2 hex
    unfold layerStep
    rw [h1, h2]
    dsimp only
    have hfind : (ls.find? (fun l =>
        l.depthTop == dt && l.depthBottom == db)).isSome := by
      rcases hex with ⟨l, hl, e1, e2⟩
      exact List.find?_isSome.mpr ⟨l, hl, by simp [e1, e2]⟩
    by_cases h3 : getCell header row "uscs" ≠ ""
    · rw [if_pos h3, if_pos hfind]
    · rw [if_neg h3]
  · intro header row ss maxD sd h1 hex
    unfold sampleStep
    rw [h1]
    dsimp only
    have hfind : (ss.find? (fun s =>
        s.depth == some sd && s.id == getCell header row "sample_id")).isSome := by
      rcases hex with ⟨s, hs, e1, e2⟩
      exact List.find?_isSome.mpr ⟨s, hs, by simp [e1, e2]⟩
    by_cases h3 : getCell header row "sample_type" ≠ "" ∧
        getCell header row "sample_id" ≠ ""
    · rw [if_pos h3]
      dsimp only
      rw [if_pos hfind]
    · rw [if_neg h3]

/-- Witness for C7: at the concrete CSV `wCsv` (two rows sharing layer key
`(0, 1)` with different descriptions) the parse succeeds with
pairwise-distinct layers, and the per-row steps ignore a duplicate layer
row and a duplicate sample. -/
theorem spec_c7_witness :
    wCsvRec.layers.Pairwise (fun a b =>
      ¬(a.depthTop = b.depthTop ∧ a.depthBottom = b.depthBottom)) ∧
    (layerStep ["depth_top", "depth_bottom", "uscs", "description"]
      ["0", "1", "CL", "B"] wCsvRec.layers 1).1 = wCsvRec.layers ∧
    (sampleStep ["sample_depth", "sample_type", "sample_id"]
      ["2", "SPT", "S-1"]
      [{ depth := some 2, depthTop := none, depthBottom := none,
         type := "SPT", id := "S-1", blows := none, recovery := none }]
      1).1
      = [{ depth := some 2, depthTop := none, depthBottom := none,
           type := "SPT", id := "S-1", blows := none, recovery := none }] :=
  ⟨(spec_c7_dedup.1 wCsv wParseCfg wCsvRec (by rfl)).1,
   spec_c7_dedup.2.1 ["depth_top", "depth_bottom", "uscs", "description"]
     ["0", "1", "CL", "B"] wCsvRec.layers 1 0 1 (by decide) (by decide)
     ⟨{ depthTop := 0, depthBottom := 1, uscs := some "SM",
        description := "A", moisture := none, odor := none, pid := none },
      by decide, by decide, by decide⟩,
   spec_c7_dedup.2.2 ["sample_depth", "sample_type", "sample_id"]
     ["2", "SPT", "S-1"]
     [{ depth := some 2, depthTop := none, depthBottom := none,
        type := "SPT", id := "S-1", blows := none, recovery := none }]
     1 2 (by decide)
     ⟨{ depth := some 2, depthTop := none, depthBottom := none,
        type := "SPT", id := "S-1", blows := none, recovery := none },
      by decide, by decide, by decide⟩⟩

end SoilLog
